import Mathlib

/-!
Shallow embedding of the x-clock display state machine (`src/x_clock.py`).

The mutable `XClock`/`OSCServer` dataclass state is modelled as the record
`XClock.XState`; OSC setters become pure state transformers, and one frame of
the render loop (`render`) becomes `frameRenderFull`, which also returns the
list of drawing operations applied to that frame's buffer and the trigger
flags of the two probabilistic glitch machines.  `datetime` values are
modelled as rational seconds (86400 to a day); the `random` draws and
`random.shuffle` outcomes consumed by a frame are supplied in `FrameInput`.
-/

namespace XClock

/-- RGB triple as returned by the `webcolors` library helpers. -/
abbrev RGB := ℕ × ℕ × ℕ

/-- Value of a single hexadecimal digit character, if any. -/
def hexVal (c : Char) : Option ℕ :=
  if '0' ≤ c ∧ c ≤ '9' then some (c.toNat - 48)
  else if 'a' ≤ c ∧ c ≤ 'f' then some (c.toNat - 87)
  else if 'A' ≤ c ∧ c ≤ 'F' then some (c.toNat - 55)
  else none

/-- Model of `webcolors.hex_to_rgb`: accepts `#rrggbb` or `#rgb` (any case),
fails (`ValueError`) on anything else. -/
def hex_to_rgb (s : String) : Option RGB :=
  match s.data with
  | '#' :: rest =>
    match rest.mapM hexVal with
    | some [a, b, c, d, e, f] => some (16 * a + b, 16 * c + d, 16 * e + f)
    | some [a, b, c] => some (17 * a, 17 * b, 17 * c)
    | _ => none
  | _ => none

/-- Named-color table modelling the `webcolors` name lookup (the HTML4 subset
of the library's table; the claims only rely on hex successes and on tokens
that are not color names in any table). -/
def colorNames : List (String × RGB) :=
  [("aqua", (0, 255, 255)), ("black", (0, 0, 0)), ("blue", (0, 0, 255)),
   ("fuchsia", (255, 0, 255)), ("gray", (128, 128, 128)), ("green", (0, 128, 0)),
   ("lime", (0, 255, 0)), ("maroon", (128, 0, 0)), ("navy", (0, 0, 128)),
   ("olive", (128, 128, 0)), ("purple", (128, 0, 128)), ("red", (255, 0, 0)),
   ("silver", (192, 192, 192)), ("teal", (0, 128, 128)),
   ("white", (255, 255, 255)), ("yellow", (255, 255, 0))]

/-- Character-wise lowercasing (the normalization `webcolors` applies to
color names before lookup). -/
def strLower (s : String) : String := String.mk (s.data.map Char.toLower)

/-- Model of `webcolors.name_to_rgb`: case-insensitive named-color lookup. -/
def name_to_rgb (c : String) : Option RGB :=
  (colorNames.find? (fun p => p.1 = strLower c)).map (fun p => p.2)

/-- Model of `color_to_rgb` (src/x_clock.py:29).  The outer `none` encodes the
IndexError escape on an empty token that is not a color name (`color[0]` in
the hex fallback raises, and only `ValueError` is caught here); `some r` is
the function's return value, where `r = none` is Python's `None` on the
logged parse failure. -/
def color_to_rgb (color : String) : Option (Option RGB) :=
  match name_to_rgb color with
  | some rgb => some (some rgb)
  | none =>
    if color = "" then none
    else some (hex_to_rgb (if color.front = '#' then color else "#" ++ color))

/-! ### Time model

A `datetime` is a rational number of seconds; days are 86400 seconds.
`Int.fract t` is the sub-second (microsecond) part, which
`datetime.replace(hour=…, minute=…, second=0)` preserves. -/

/-- Day index of a time value (floor division, as `datetime` day roll-over;
`/` and `%` on `ℤ` are Euclidean, matching Python's `//` and `%` for the
positive divisors used here). -/
def dayOf (t : ℚ) : ℤ := ⌊t⌋ / 86400

/-- Second-of-day of a time value. -/
def secOfDay (t : ℚ) : ℤ := ⌊t⌋ % 86400

/-- Hour field (0–23) of a time value. -/
def hourOf (t : ℚ) : ℤ := secOfDay t / 3600

/-- Minute field (0–59) of a time value. -/
def minuteOf (t : ℚ) : ℤ := secOfDay t % 3600 / 60

/-- Second field (0–59) of a time value. -/
def secondOf (t : ℚ) : ℤ := ⌊t⌋ % 60

/-- Model of `t.replace(hour=h, minute=m, second=0)`: same day, given hour and
minute, second zeroed, microseconds preserved. -/
def replaceHM (t : ℚ) (h m : ℤ) : ℚ :=
  (dayOf t) * 86400 + h * 3600 + m * 60 + Int.fract t

/-- Model of `t.replace(second=0)`: truncate to the current minute,
microseconds preserved. -/
def replaceSec0 (t : ℚ) : ℚ := ((⌊t⌋ / 60) * 60 : ℤ) + Int.fract t

/-- Glitch mode constants (src/x_clock.py:254-257). -/
def GLITCH_MODE_OFF : ℤ := 0

/-- Glitching constantly. -/
def GLITCH_MODE_ON : ℤ := 1

/-- Glitching at random intervals. -/
def GLITCH_MODE_RANDOM : ℤ := 2

/-- Glitch once. -/
def GLITCH_MODE_SINGLE : ℤ := 3

/-- Mutable state of the `XClock` dataclass (src/x_clock.py:207-251), minus
the pure-rendering resources (image, font, glyph bitmaps, argparse fields). -/
structure XState where
  glitch_mode : ℤ
  glitch_freq : ℤ
  glitch_step : ℤ
  glitch_intensity : ℤ
  blink_all : Bool
  blink_dots : Bool
  blink_state : Bool
  show_dots : Bool
  show_numbers : Bool
  x_glitch_mode : ℤ
  x_glitch_step : ℤ
  x_glitch_freq : ℤ
  x_glitch_frames : ℤ
  x_glitch_number : ℤ
  x_positions : List ℕ
  text_color : Option RGB
  x_color : Option RGB
  background : Option RGB
  framerate : ℚ
  fade_time : ℚ
  fade_elapsed : ℚ
  brightness : ℚ
  last_brightness : ℚ
  target_brightness : ℚ
  current_time : ℚ
  real_elapsed : ℚ
  time_dilation_factor : ℚ
  numbers_glitch_step : ℤ
  fade_snap_next_brightness : ℚ
  fade_snap_time : Option ℚ
  fade_snap_clear_x : Bool
  freeze_time : Option ℚ
  scrolling_text : String
  text_scroll_offset : ℤ
deriving DecidableEq

/-- Dataclass defaults of `XClock` (src/x_clock.py:207-251); `t0` is the wall
clock at startup (`datetime.datetime.now()`). -/
def initState (t0 : ℚ) : XState where
  glitch_mode := 0
  glitch_freq := 0
  glitch_step := 0
  glitch_intensity := 4
  blink_all := false
  blink_dots := true
  blink_state := true
  show_dots := true
  show_numbers := true
  x_glitch_mode := 0
  x_glitch_step := 0
  x_glitch_freq := 0
  x_glitch_frames := 0
  x_glitch_number := 0
  x_positions := []
  text_color := Option.join (color_to_rgb "#29B6F6")
  x_color := Option.join (color_to_rgb "#C70000")
  background := some (0, 0, 0)
  framerate := 0.05
  fade_time := 10
  fade_elapsed := 0
  brightness := 0
  last_brightness := 0
  target_brightness := 100
  current_time := t0
  real_elapsed := 0
  time_dilation_factor := 1
  numbers_glitch_step := 0
  fade_snap_next_brightness := 0
  fade_snap_time := none
  fade_snap_clear_x := false
  freeze_time := none
  scrolling_text := ""
  text_scroll_offset := 0

/-- External inputs consumed by one frame of the render loop: the real elapsed
seconds since the previous frame, the `random.randint(0, 10000)` draws of the
two probabilistic glitch machines, the burst length drawn by
`random.randint(3, 7)`, the outcome of `random.shuffle([0, 1, 2, 3])`, and
the text/panel widths used by the scroller. -/
structure FrameInput where
  elapsed : ℚ
  rand_x : ℤ
  rand_g : ℤ
  burst_len : ℤ
  shuffled : List ℕ
  text_w : ℤ
  mat_w : ℤ
  hshuffled : shuffled.Perm [0, 1, 2, 3]

/-- Drawing operations applied to a frame's buffer, in order.  `glyph` is a
clock digit from `update_clock`, `sep` the `":"` separator, `randDigit` a
`numbers_glitch` digit, `xGlyph` an X overlay from `draw_x`, `shear` one
`make_glitch` pixel-shear pass, `text` the scrolling text. -/
inductive DrawOp where
  | text (s : String)
  | glyph (c : Char) (pos : ℕ)
  | sep
  | randDigit (pos : ℕ)
  | xGlyph (pos : ℕ)
  | shear
deriving DecidableEq

/-- Model of `tick_tock` (src/x_clock.py:279): advance the dilated time cursor
and update blink visibility. -/
def tick_tock (s : XState) (elapsed : ℚ) : XState :=
  let dilated := elapsed * s.time_dilation_factor
  let ct := s.current_time + dilated
  let s1 := { s with real_elapsed := elapsed, current_time := ct }
  let s2 :=
    if s1.blink_dots ∨ s1.blink_all then
      let bs := if 1 < |dilated| then !s1.blink_state
                else decide ((1 : ℚ) / 2 ≤ Int.fract ct)
      { s1 with blink_state := bs, show_dots := bs }
    else s1
  if s2.blink_all then { s2 with show_numbers := s2.blink_state } else s2

/-- Digit character for a value in 0–9. -/
def digitChar (n : ℤ) : Char := Char.ofNat (48 + n.toNat)

/-- Characters of `time_obj.strftime("%H%M")`. -/
def hhmm (t : ℚ) : List Char :=
  [digitChar (Int.ediv (hourOf t) 10), digitChar (Int.emod (hourOf t) 10),
   digitChar (Int.ediv (minuteOf t) 10), digitChar (Int.emod (minuteOf t) 10)]

/-- Model of `draw_scrolling_text` (src/x_clock.py:314): emit the text, bump
the scroll offset, wrap once the text has scrolled fully past. -/
def draw_scrolling_text (s : XState) (text_w mat_w : ℤ) : XState × List DrawOp :=
  let off := s.text_scroll_offset + 1
  let off := if text_w + mat_w < off then 0 else off
  ({ s with text_scroll_offset := off }, [DrawOp.text s.scrolling_text])

/-- Model of `update_clock` (src/x_clock.py:336): scrolling text when active,
otherwise the blink-gated separator and the four time digits (of the frozen
time when frozen). -/
def update_clock (s : XState) (inp : FrameInput) : XState × List DrawOp :=
  if s.scrolling_text ≠ "" then draw_scrolling_text s inp.text_w inp.mat_w
  else
    let t := s.freeze_time.getD s.current_time
    (s, (if s.show_dots then [DrawOp.sep] else []) ++
        ((hhmm t).enum.map fun p => DrawOp.glyph p.2 p.1))

/-- Model of `numbers_glitch` (src/x_clock.py:499): while the countdown is
nonzero, overwrite all four digit slots with random digits. -/
def numbers_glitch (s : XState) : XState × List DrawOp :=
  if s.numbers_glitch_step ≠ 0 then
    ({ s with numbers_glitch_step := s.numbers_glitch_step - 1 },
     [DrawOp.randDigit 0, DrawOp.randDigit 1, DrawOp.randDigit 2, DrawOp.randDigit 3])
  else (s, [])

/-- Python slice `l[:n]`, including the negative-stop case `len + n`
clamped at zero. -/
def pySlice (n : ℤ) (l : List ℕ) : List ℕ :=
  if 0 ≤ n then l.take n.toNat else l.take ((l.length : ℤ) + n).toNat

/-- Model of `start_x_glitch` (src/x_clock.py:376): take the first
`x_glitch_number` entries of the shuffled slot indices and arm the frame
countdown. -/
def start_x_glitch (s : XState) (shuffled : List ℕ) : XState :=
  { s with x_positions := pySlice s.x_glitch_number shuffled,
           x_glitch_step := s.x_glitch_frames }

/-- Model of `x_glitch` (src/x_clock.py:357).  The boolean reports whether
`start_x_glitch` fired this step. -/
def x_glitch (s : XState) (inp : FrameInput) : XState × Bool :=
  let s :=
    if 0 < s.x_glitch_step then
      let s := { s with x_glitch_step := s.x_glitch_step - 1 }
      if s.x_glitch_step ≤ 0 then { s with x_positions := [] } else s
    else s
  if s.x_glitch_mode = GLITCH_MODE_OFF then (s, false)
  else if s.x_glitch_mode = GLITCH_MODE_RANDOM then
    if s.x_glitch_step = 0 then
      if inp.rand_x ≤ s.x_glitch_freq then (start_x_glitch s inp.shuffled, true)
      else (s, false)
    else (s, false)
  else if s.x_glitch_mode = GLITCH_MODE_SINGLE then
    (start_x_glitch { s with x_glitch_mode := GLITCH_MODE_OFF } inp.shuffled, true)
  else (s, false)

/-- Model of `draw_x` (src/x_clock.py:350): one X glyph per active position. -/
def draw_x (s : XState) : List DrawOp := s.x_positions.map DrawOp.xGlyph

/-- Model of `do_glitch` (src/x_clock.py:399).  `make_glitch` is abstracted as
one `shear` operation; the boolean reports whether a new burst was armed
(`glitch_step` set from the random branch). -/
def do_glitch (s : XState) (inp : FrameInput) : XState × List DrawOp × Bool :=
  let p :=
    if 0 < s.glitch_step then
      ({ s with glitch_step := s.glitch_step - 1 }, [DrawOp.shear])
    else (s, ([] : List DrawOp))
  let s := p.1
  let ops := p.2
  if s.glitch_mode = GLITCH_MODE_OFF then (s, ops, false)
  else if s.glitch_mode = GLITCH_MODE_ON then (s, ops ++ [DrawOp.shear], false)
  else if s.glitch_mode = GLITCH_MODE_RANDOM then
    if s.glitch_step = 0 then
      if inp.rand_g ≤ s.glitch_freq then
        ({ s with glitch_step := inp.burst_len }, ops, true)
      else (s, ops, false)
    else (s, ops, false)
  else (s, ops, false)

/-- Model of `step_fade` (src/x_clock.py:477): linear fade toward
`target_brightness` over `fade_time` seconds of real elapsed time; on landing
exactly on the target, a pending fade-snap teleports the clock, optionally
clears the X overlay, and re-targets the pre-snap brightness. -/
def step_fade (s : XState) : XState :=
  if s.target_brightness ≠ s.brightness then
    let fe := s.fade_elapsed + s.real_elapsed
    let pct := fe / s.fade_time
    let b :=
      if pct < 1 then
        s.last_brightness + (s.target_brightness - s.last_brightness) * pct
      else s.target_brightness
    let s1 := { s with fade_elapsed := fe, brightness := b }
    match s1.fade_snap_time with
    | some t =>
      if s1.brightness = s1.target_brightness then
        { s1 with x_positions := if s1.fade_snap_clear_x then [] else s1.x_positions,
                  current_time := t,
                  fade_snap_time := none,
                  target_brightness := s1.fade_snap_next_brightness }
      else s1
    | none => s1
  else s

/-- Model of one call to `render` (src/x_clock.py:508).  Returns the state
after the frame, the drawing operations applied to the frame buffer, and the
trigger booleans of `do_glitch` and `x_glitch`.  The `Cleared` signal at
brightness 0/0 aborts the frame right after `tick_tock`; the `Cleared` signal
on `show_numbers` happens after `step_fade`, so state changes persist. -/
def frameRenderFull (s : XState) (inp : FrameInput) :
    XState × List DrawOp × Bool × Bool :=
  let s1 := tick_tock s inp.elapsed
  if s1.brightness = 0 ∧ s1.target_brightness = 0 then (s1, [], false, false)
  else
    let uc := update_clock s1 inp
    let ng := numbers_glitch uc.1
    let xg := x_glitch ng.1 inp
    let xops := draw_x xg.1
    let dg := do_glitch xg.1 inp
    let sf := step_fade dg.1
    (sf, uc.2 ++ ng.2 ++ xops ++ dg.2.1, dg.2.2, xg.2)

/-- State evolution of one frame. -/
def frameStep (s : XState) (inp : FrameInput) : XState := (frameRenderFull s inp).1

/-- Drawing operations applied to the frame's buffer. -/
def frameOps (s : XState) (inp : FrameInput) : List DrawOp := (frameRenderFull s inp).2.1

/-- Whether `do_glitch` armed a new burst during the frame. -/
def frameBurst (s : XState) (inp : FrameInput) : Bool := (frameRenderFull s inp).2.2.1

/-- Whether `start_x_glitch` fired during the frame. -/
def frameXTrig (s : XState) (inp : FrameInput) : Bool := (frameRenderFull s inp).2.2.2

/-- Iterated frame stepping. -/
def runFrames (s : XState) (is : List FrameInput) : XState := is.foldl frameStep s

/-- Total real elapsed time over a list of frame inputs. -/
def sumE (is : List FrameInput) : ℚ := (is.map FrameInput.elapsed).sum

/-- Iterated steps of the X-glitch state machine alone (`x_glitch` is invoked
once per rendered frame). -/
def xMachineRun (s : XState) (is : List FrameInput) : XState :=
  is.foldl (fun s i => (x_glitch s i).1) s

/-! ### OSC setters (class `OSCServer`, src/x_clock.py:587-746) -/

/-- Model of `set_brightness` (src/x_clock.py:697).  Note the source stores
the raw `target` —not the clamped value— into `brightness` when
`duration == 0`, and touches `fade_elapsed`/`fade_time` only when
`duration != 0`. -/
def set_brightness (s : XState) (target duration : ℚ) : XState :=
  let s1 := { s with last_brightness := s.brightness,
                     target_brightness := max (min target 100) 0 }
  if duration = 0 then { s1 with brightness := target }
  else { s1 with fade_elapsed := 0, fade_time := duration }

/-- Model of `set_fadesnap` (src/x_clock.py:706).  `datetime.replace` raises
`ValueError` on an out-of-range hour or minute; the dispatcher catches it,
but the first assignment has already happened, so only
`fade_snap_next_brightness` is mutated in that case. -/
def set_fadesnap (s : XState) (hour minute : ℤ) (duration : ℚ) (clear_x : Bool) :
    XState :=
  let s1 := { s with fade_snap_next_brightness := s.brightness }
  if 0 ≤ hour ∧ hour ≤ 23 ∧ 0 ≤ minute ∧ minute ≤ 59 then
    let s2 := { s1 with fade_snap_time := some (replaceHM s1.current_time hour minute) }
    let s3 := set_brightness s2 0 duration
    { s3 with fade_snap_clear_x := clear_x, freeze_time := none }
  else s1

/-- Model of `set_time` (src/x_clock.py:669); `replace` raises before any
mutation when the hour or minute is out of range. -/
def set_time (s : XState) (hour minute : ℤ) : XState :=
  if 0 ≤ hour ∧ hour ≤ 23 ∧ 0 ≤ minute ∧ minute ≤ 59 then
    { s with current_time := replaceHM s.current_time hour minute,
             freeze_time := none }
  else s

/-- Model of `set_freeze` (src/x_clock.py:675). -/
def set_freeze (s : XState) (enabled : ℤ) : XState :=
  match s.freeze_time with
  | some t => if enabled = 0 then { s with current_time := t, freeze_time := none } else s
  | none => if enabled ≠ 0 then { s with freeze_time := some s.current_time } else s

/-- Model of `set_glitch_to` (src/x_clock.py:682); a `ValueError` from
`set_time` propagates before `numbers_glitch_step` is written. -/
def set_glitch_to (s : XState) (hour minute frames : ℤ) : XState :=
  if 0 ≤ hour ∧ hour ≤ 23 ∧ 0 ≤ minute ∧ minute ≤ 59 then
    { set_time s hour minute with numbers_glitch_step := frames }
  else s

/-- Model of `set_x_color` (src/x_clock.py:646): a falsy color (Python `None`
or `""`) is ignored; otherwise the parse failure keeps the previous color
(`color_to_rgb(color) or self.x_color`). -/
def set_x_color (s : XState) (color : Option String) : XState :=
  match color with
  | none => s
  | some c =>
    if c = "" then s
    else
      match color_to_rgb c with
      | some r => { s with x_color := r.orElse fun _ => s.x_color }
      | none => s

/-- Model of `set_color` (src/x_clock.py:663): the resolver's result is stored
unconditionally, so a parse failure stores Python `None` (here `none`); an
empty token raises IndexError inside `color_to_rgb` before the assignment. -/
def set_color (s : XState) (c : String) : XState :=
  match color_to_rgb c with
  | none => s
  | some r => { s with text_color := r }

/-- Model of `set_bg` (src/x_clock.py:666), same shape as `set_color`. -/
def set_bg (s : XState) (c : String) : XState :=
  match color_to_rgb c with
  | none => s
  | some r => { s with background := r }

/-- Index list built by `set_x_positions`: positions of `X` characters,
models `for idx, pos in enumerate(positions): if pos == "X": append(idx)`. -/
def positions_array : List Char → ℕ → List ℕ
  | [], _ => []
  | c :: cs, i =>
    if c = 'X' then i :: positions_array cs (i + 1) else positions_array cs (i + 1)

/-- Model of `set_x_positions` (src/x_clock.py:650): rejects strings whose
length is not 4, otherwise switches the X machine off and installs the mask. -/
def set_x_positions (s : XState) (positions : String) (color : Option String) :
    XState :=
  if positions.length ≠ 4 then s
  else
    let s1 := { s with x_glitch_mode := GLITCH_MODE_OFF, x_glitch_step := 0 }
    let arr := positions_array positions.data 0
    let s2 := set_x_color s1 color
    { s2 with x_positions := arr }

/-- Model of `set_random_glitch` (src/x_clock.py:622). -/
def set_random_glitch (s : XState) (freq intensity : ℤ) : XState :=
  let s1 := { s with glitch_intensity := intensity }
  if freq = -1 then { s1 with glitch_mode := GLITCH_MODE_ON }
  else if freq = 0 then { s1 with glitch_mode := GLITCH_MODE_OFF }
  else { s1 with glitch_mode := GLITCH_MODE_RANDOM, glitch_freq := freq }

/-- Model of `set_single_x_glitch` (src/x_clock.py:640). -/
def set_single_x_glitch (s : XState) (num frames : ℤ) (color : Option String) :
    XState :=
  let s1 := set_x_color s color
  { s1 with x_glitch_number := num, x_glitch_frames := frames,
            x_glitch_mode := GLITCH_MODE_SINGLE }

/-- Model of `set_random_x_glitch` (src/x_clock.py:632). -/
def set_random_x_glitch (s : XState) (freq num frames : ℤ) (color : Option String) :
    XState :=
  if freq = 0 then { s with x_glitch_mode := GLITCH_MODE_OFF }
  else
    let s1 := set_single_x_glitch s num frames color
    { s1 with x_glitch_freq := freq, x_glitch_mode := GLITCH_MODE_RANDOM }

/-- Model of `set_blink_dots` (src/x_clock.py:725). -/
def set_blink_dots (s : XState) (enabled : ℤ) : XState :=
  let b := enabled = 1
  { s with blink_dots := b, show_dots := !b }

/-- Model of `set_blink_all` (src/x_clock.py:729). -/
def set_blink_all (s : XState) (enabled : ℤ) : XState :=
  let b := enabled = 1
  { s with blink_all := b, show_numbers := !b }

/-- Model of `set_normal` (src/x_clock.py:686), the compound reset. -/
def set_normal (s : XState) : XState :=
  let s1 := { s with x_glitch_mode := GLITCH_MODE_OFF }
  let s2 := set_freeze s1 0
  let s3 := set_blink_all s2 0
  let s4 := set_blink_dots s3 1
  let s5 := { s4 with glitch_mode := GLITCH_MODE_OFF, time_dilation_factor := 1 }
  let s6 := { s5 with current_time := replaceSec0 s5.current_time }
  { s6 with x_positions := [], x_color := s6.text_color }

/-- Model of `set_time_dilation` (src/x_clock.py:715). -/
def set_time_dilation (s : XState) (factor : ℚ) : XState :=
  { s with time_dilation_factor := factor }

/-- Model of `set_increment_time` (src/x_clock.py:718). -/
def set_increment_time (s : XState) (minutes : ℤ) : XState :=
  let ct := s.current_time + (minutes : ℚ) * 60
  { s with current_time := replaceSec0 ct }

/-- Model of `set_framerate` (src/x_clock.py:722). -/
def set_framerate (s : XState) (rate : ℚ) : XState := { s with framerate := rate }

/-- Model of `set_timenow` (src/x_clock.py:733); `now` is the external wall
clock, `reset_dilation` is truthy iff nonzero. -/
def set_timenow (s : XState) (reset_dilation : ℤ) (now : ℚ) : XState :=
  let s1 := if reset_dilation ≠ 0 then { s with time_dilation_factor := 1 } else s
  { s1 with current_time := now }

/-- Model of `set_display_text` (src/x_clock.py:738). -/
def set_display_text (s : XState) (text : String) : XState :=
  let off := if text ≠ s.scrolling_text then 0 else s.text_scroll_offset
  { s with text_scroll_offset := off, scrolling_text := text }

/-- Model of `set_showip` (src/x_clock.py:744); `ip` is the externally
discovered address. -/
def set_showip (s : XState) (enabled : ℤ) (ip : String) : XState :=
  set_display_text s (if enabled = 0 then "" else ip)

/-- Commands accepted by the OSC dispatcher `osc_recv` (src/x_clock.py:609).
`brightnessBadTarget` models `/brightness` with a non-numeric target: the
setter assigns `last_brightness` and then `min(target, 100)` raises
`TypeError`, which the dispatcher logs and swallows.  `unknown` covers both
unknown command names (`AttributeError`) and wrong-arity calls (`TypeError`
raised before the setter body runs): state is untouched. -/
inductive Cmd where
  | time (hour minute : ℤ)
  | freeze (enabled : ℤ)
  | timenow (reset_dilation : ℤ) (now : ℚ)
  | increment_time (minutes : ℤ)
  | time_dilation (factor : ℚ)
  | brightness (target duration : ℚ)
  | brightnessBadTarget (duration : ℚ)
  | color (c : String)
  | xColor (c : String)
  | bg (c : String)
  | random_glitch (freq intensity : ℤ)
  | random_x_glitch (freq num frames : ℤ) (color : Option String)
  | single_x_glitch (num frames : ℤ) (color : Option String)
  | xPositions (positions : String) (color : Option String)
  | glitch_to (hour minute frames : ℤ)
  | fadesnap (hour minute : ℤ) (duration : ℚ) (clear_x : Bool)
  | normal
  | blink_dots (enabled : ℤ)
  | blink_all (enabled : ℤ)
  | framerate (rate : ℚ)
  | display_text (text : String)
  | showip (enabled : ℤ) (ip : String)
  | unknown

/-- Model of `osc_recv` (src/x_clock.py:609): route a command to its setter;
failed commands leave whatever the raising setter mutated before the raise. -/
def dispatch (s : XState) : Cmd → XState
  | .time h m => set_time s h m
  | .freeze e => set_freeze s e
  | .timenow r now => set_timenow s r now
  | .increment_time m => set_increment_time s m
  | .time_dilation f => set_time_dilation s f
  | .brightness t d => set_brightness s t d
  | .brightnessBadTarget _ => { s with last_brightness := s.brightness }
  | .color c => set_color s c
  | .xColor c => set_x_color s (some c)
  | .bg c => set_bg s c
  | .random_glitch f i => set_random_glitch s f i
  | .random_x_glitch f n fr c => set_random_x_glitch s f n fr c
  | .single_x_glitch n fr c => set_single_x_glitch s n fr c
  | .xPositions p c => set_x_positions s p c
  | .glitch_to h m fr => set_glitch_to s h m fr
  | .fadesnap h m d cx => set_fadesnap s h m d cx
  | .normal => set_normal s
  | .blink_dots e => set_blink_dots s e
  | .blink_all e => set_blink_all s e
  | .framerate r => set_framerate s r
  | .display_text t => set_display_text s t
  | .showip e ip => set_showip s e ip
  | .unknown => s

/-- Events of the cooperative loop: a dispatched command or a rendered frame. -/
inductive Ev where
  | cmd (c : Cmd)
  | frame (i : FrameInput)

/-- Run a sequence of commands and frames from a state. -/
def run (s : XState) (evs : List Ev) : XState :=
  evs.foldl (fun s e => match e with | .cmd c => dispatch s c | .frame i => frameStep s i) s

/-- Canonical concrete frame input used by witnesses: elapsed `e`, random
draws that never hit, identity shuffle, a 10-pixel text on a 64-pixel panel. -/
def inp (e : ℚ) : FrameInput :=
  { elapsed := e, rand_x := 10001, rand_g := 10001, burst_len := 3,
    shuffled := [0, 1, 2, 3], text_w := 10, mat_w := 64,
    hshuffled := List.Perm.refl _ }

/-- Concrete startup state at full brightness, used by witnesses. -/
def wS0 : XState := { initState 0 with brightness := 100 }

/-- Concrete startup state at brightness 40, used by witnesses. -/
def wS40 : XState := { initState 0 with brightness := 40 }

/-- Concrete state configured for a 2-slot X glitch, used by witnesses. -/
def wXn : XState := { initState 0 with x_glitch_number := 2, x_glitch_frames := 3 }

/-- Concrete state with an armed 2-frame X countdown, used by witnesses. -/
def wXs : XState := { initState 0 with x_glitch_step := 2, x_positions := [0, 1] }

/-- Concrete state with scrolling text active, used by witnesses. -/
def wScroll : XState := { initState 0 with scrolling_text := "HI" }

/-! ### Views and invariants used by the proofs -/

/-- Fade-controller slice of the state: brightness, fade interpolation fields
and the pending-snap fields. -/
def fadeView (s : XState) :
    ℚ × ℚ × ℚ × ℚ × ℚ × Option ℚ × Bool × ℚ :=
  (s.brightness, s.last_brightness, s.target_brightness, s.fade_time,
   s.fade_elapsed, s.fade_snap_time, s.fade_snap_clear_x,
   s.fade_snap_next_brightness)

/-- State of the frame pipeline just before `step_fade` runs (the non-blank
branch of `render`). -/
def preFade (s : XState) (i : FrameInput) : XState :=
  (do_glitch (x_glitch (numbers_glitch (update_clock (tick_tock s i.elapsed) i).1).1 i).1 i).1

/-- Structural invariant of the X overlay: active positions are distinct slot
indices in `{0, 1, 2, 3}`. -/
def XInv (s : XState) : Prop :=
  s.x_positions.Nodup ∧ ∀ p ∈ s.x_positions, p < 4

/-- Fade-down phase of a `set_fadesnap(h, m, 1, clear_x := true)` call made at
brightness 100: after `c` seconds of accumulated real time the brightness is
`100 - 100 * c` and the snap to time `T` is still pending. -/
def C1Inv (T : ℚ) (c : ℚ) (s : XState) : Prop :=
  fadeView s = (100 - 100 * c, 100, 0, 1, c, some T, true, 100)

/-- Mid-fade phase of a `set_brightness(100, 2)` call made at brightness 40
with no snap pending. -/
def C2Mid (c : ℚ) (s : XState) : Prop :=
  s.brightness = 40 + 30 * c ∧ s.last_brightness = 40 ∧
  s.target_brightness = 100 ∧ s.fade_time = 2 ∧ s.fade_elapsed = c ∧
  s.fade_snap_time = none

/-- Completed phase of that fade: brightness pinned at the target. -/
def C2Done (s : XState) : Prop :=
  s.brightness = 100 ∧ s.target_brightness = 100

/-- Disjunctive invariant for the `set_brightness(100, 2)` fade, indexed by
the accumulated real time `c`. -/
def C2M (c : ℚ) (s : XState) : Prop :=
  (c < 2 ∧ C2Mid c s) ∨ (2 ≤ c ∧ C2Done s)

/-- Core invariant maintained by every command and frame: `fade_time` is never
zero (so `step_fade` never divides by zero) and the X overlay positions are
well-formed. -/
def coreOK (s : XState) : Prop := s.fade_time ≠ 0 ∧ XInv s

/-! ### Projection lemmas for the frame pipeline -/

@[simp] lemma fadeView_tick_tock (s : XState) (e : ℚ) :
    fadeView (tick_tock s e) = fadeView s := by
  simp only [tick_tock, fadeView]
  split_ifs <;> rfl

@[simp] lemma fadeView_update_clock (s : XState) (i : FrameInput) :
    fadeView (update_clock s i).1 = fadeView s := by
  simp only [update_clock, draw_scrolling_text, fadeView]
  split_ifs <;> rfl

@[simp] lemma fadeView_numbers_glitch (s : XState) :
    fadeView (numbers_glitch s).1 = fadeView s := by
  simp only [numbers_glitch, fadeView]
  split_ifs <;> rfl

@[simp] lemma fadeView_x_glitch (s : XState) (i : FrameInput) :
    fadeView (x_glitch s i).1 = fadeView s := by
  simp only [x_glitch, start_x_glitch, fadeView]
  split_ifs <;> rfl

@[simp] lemma fadeView_do_glitch (s : XState) (i : FrameInput) :
    fadeView (do_glitch s i).1 = fadeView s := by
  simp only [do_glitch, fadeView]
  split_ifs <;> rfl

@[simp] lemma fadeView_preFade (s : XState) (i : FrameInput) :
    fadeView (preFade s i) = fadeView s := by
  simp [preFade]

@[simp] lemma tick_tock_real_elapsed (s : XState) (e : ℚ) :
    (tick_tock s e).real_elapsed = e := by
  simp only [tick_tock]
  split_ifs <;> rfl

@[simp] lemma update_clock_real_elapsed (s : XState) (i : FrameInput) :
    (update_clock s i).1.real_elapsed = s.real_elapsed := by
  simp only [update_clock, draw_scrolling_text]
  split_ifs <;> rfl

@[simp] lemma numbers_glitch_real_elapsed (s : XState) :
    (numbers_glitch s).1.real_elapsed = s.real_elapsed := by
  simp only [numbers_glitch]
  split_ifs <;> rfl

@[simp] lemma x_glitch_real_elapsed (s : XState) (i : FrameInput) :
    (x_glitch s i).1.real_elapsed = s.real_elapsed := by
  simp only [x_glitch, start_x_glitch]
  split_ifs <;> rfl

@[simp] lemma do_glitch_real_elapsed (s : XState) (i : FrameInput) :
    (do_glitch s i).1.real_elapsed = s.real_elapsed := by
  simp only [do_glitch]
  split_ifs <;> rfl

@[simp] lemma preFade_real_elapsed (s : XState) (i : FrameInput) :
    (preFade s i).real_elapsed = i.elapsed := by
  simp [preFade]

lemma fadeView_ext {s s' : XState} (h : fadeView s = fadeView s') :
    s.brightness = s'.brightness ∧ s.last_brightness = s'.last_brightness ∧
    s.target_brightness = s'.target_brightness ∧ s.fade_time = s'.fade_time ∧
    s.fade_elapsed = s'.fade_elapsed ∧ s.fade_snap_time = s'.fade_snap_time ∧
    s.fade_snap_clear_x = s'.fade_snap_clear_x ∧
    s.fade_snap_next_brightness = s'.fade_snap_next_brightness := by
  simpa [fadeView, Prod.ext_iff] using h

@[simp] lemma tick_tock_brightness (s : XState) (e : ℚ) :
    (tick_tock s e).brightness = s.brightness :=
  (fadeView_ext (fadeView_tick_tock s e)).1

@[simp] lemma tick_tock_target (s : XState) (e : ℚ) :
    (tick_tock s e).target_brightness = s.target_brightness :=
  (fadeView_ext (fadeView_tick_tock s e)).2.2.1

@[simp] lemma tick_tock_scrolling (s : XState) (e : ℚ) :
    (tick_tock s e).scrolling_text = s.scrolling_text := by
  simp only [tick_tock]
  split_ifs <;> rfl

@[simp] lemma tick_tock_glitch_mode (s : XState) (e : ℚ) :
    (tick_tock s e).glitch_mode = s.glitch_mode := by
  simp only [tick_tock]
  split_ifs <;> rfl

@[simp] lemma tick_tock_x_glitch_mode (s : XState) (e : ℚ) :
    (tick_tock s e).x_glitch_mode = s.x_glitch_mode := by
  simp only [tick_tock]
  split_ifs <;> rfl

@[simp] lemma tick_tock_x_positions (s : XState) (e : ℚ) :
    (tick_tock s e).x_positions = s.x_positions := by
  simp only [tick_tock]
  split_ifs <;> rfl

@[simp] lemma update_clock_glitch_mode (s : XState) (i : FrameInput) :
    (update_clock s i).1.glitch_mode = s.glitch_mode := by
  simp only [update_clock, draw_scrolling_text]
  split_ifs <;> rfl

@[simp] lemma update_clock_x_glitch_mode (s : XState) (i : FrameInput) :
    (update_clock s i).1.x_glitch_mode = s.x_glitch_mode := by
  simp only [update_clock, draw_scrolling_text]
  split_ifs <;> rfl

@[simp] lemma update_clock_x_positions (s : XState) (i : FrameInput) :
    (update_clock s i).1.x_positions = s.x_positions := by
  simp only [update_clock, draw_scrolling_text]
  split_ifs <;> rfl

@[simp] lemma numbers_glitch_glitch_mode (s : XState) :
    (numbers_glitch s).1.glitch_mode = s.glitch_mode := by
  simp only [numbers_glitch]
  split_ifs <;> rfl

@[simp] lemma numbers_glitch_x_glitch_mode (s : XState) :
    (numbers_glitch s).1.x_glitch_mode = s.x_glitch_mode := by
  simp only [numbers_glitch]
  split_ifs <;> rfl

@[simp] lemma numbers_glitch_x_positions (s : XState) :
    (numbers_glitch s).1.x_positions = s.x_positions := by
  simp only [numbers_glitch]
  split_ifs <;> rfl

@[simp] lemma x_glitch_glitch_mode (s : XState) (i : FrameInput) :
    (x_glitch s i).1.glitch_mode = s.glitch_mode := by
  simp only [x_glitch, start_x_glitch]
  split_ifs <;> rfl

@[simp] lemma tick_tock_x_glitch_step (s : XState) (e : ℚ) :
    (tick_tock s e).x_glitch_step = s.x_glitch_step := by
  simp only [tick_tock]
  split_ifs <;> rfl

@[simp] lemma update_clock_x_glitch_step (s : XState) (i : FrameInput) :
    (update_clock s i).1.x_glitch_step = s.x_glitch_step := by
  simp only [update_clock, draw_scrolling_text]
  split_ifs <;> rfl

@[simp] lemma numbers_glitch_x_glitch_step (s : XState) :
    (numbers_glitch s).1.x_glitch_step = s.x_glitch_step := by
  simp only [numbers_glitch]
  split_ifs <;> rfl

@[simp] lemma do_glitch_x_glitch_mode (s : XState) (i : FrameInput) :
    (do_glitch s i).1.x_glitch_mode = s.x_glitch_mode := by
  simp only [do_glitch]
  split_ifs <;> rfl

@[simp] lemma do_glitch_x_positions (s : XState) (i : FrameInput) :
    (do_glitch s i).1.x_positions = s.x_positions := by
  simp only [do_glitch]
  split_ifs <;> rfl

@[simp] lemma do_glitch_glitch_mode (s : XState) (i : FrameInput) :
    (do_glitch s i).1.glitch_mode = s.glitch_mode := by
  simp only [do_glitch]
  split_ifs <;> rfl

@[simp] lemma step_fade_fade_time (s : XState) :
    (step_fade s).fade_time = s.fade_time := by
  unfold step_fade
  split_ifs
  · cases h : s.fade_snap_time <;> simp [h] <;> split_ifs <;> rfl
  · rfl

@[simp] lemma step_fade_glitch_mode (s : XState) :
    (step_fade s).glitch_mode = s.glitch_mode := by
  unfold step_fade
  split_ifs
  · cases h : s.fade_snap_time <;> simp [h] <;> split_ifs <;> rfl
  · rfl

@[simp] lemma step_fade_x_glitch_mode (s : XState) :
    (step_fade s).x_glitch_mode = s.x_glitch_mode := by
  unfold step_fade
  split_ifs
  · cases h : s.fade_snap_time <;> simp [h] <;> split_ifs <;> rfl
  · rfl

/-! ### Characterizations of one frame -/

lemma frameStep_cleared (s : XState) (i : FrameInput)
    (hb : s.brightness = 0) (ht : s.target_brightness = 0) :
    frameStep s i = tick_tock s i.elapsed := by
  have h' : (tick_tock s i.elapsed).brightness = 0 ∧
      (tick_tock s i.elapsed).target_brightness = 0 := by simp [hb, ht]
  simp only [frameStep, frameRenderFull, if_pos h']

lemma frameStep_eq (s : XState) (i : FrameInput)
    (h : ¬(s.brightness = 0 ∧ s.target_brightness = 0)) :
    frameStep s i = step_fade (preFade s i) := by
  have h' : ¬((tick_tock s i.elapsed).brightness = 0 ∧
      (tick_tock s i.elapsed).target_brightness = 0) := by simpa using h
  simp only [frameStep, frameRenderFull, preFade, if_neg h']

lemma step_fade_steady (u : XState) (heq : u.target_brightness = u.brightness) :
    step_fade u = u := by
  simp [step_fade, heq]

lemma step_fade_mid (u : XState)
    (hne : u.target_brightness ≠ u.brightness)
    (hpct : (u.fade_elapsed + u.real_elapsed) / u.fade_time < 1)
    (hb : u.last_brightness + (u.target_brightness - u.last_brightness) *
      ((u.fade_elapsed + u.real_elapsed) / u.fade_time) ≠ u.target_brightness) :
    fadeView (step_fade u) =
      (u.last_brightness + (u.target_brightness - u.last_brightness) *
        ((u.fade_elapsed + u.real_elapsed) / u.fade_time),
       u.last_brightness, u.target_brightness, u.fade_time,
       u.fade_elapsed + u.real_elapsed, u.fade_snap_time, u.fade_snap_clear_x,
       u.fade_snap_next_brightness) := by
  simp only [step_fade, if_pos hne]
  cases h : u.fade_snap_time <;>
    simp [fadeView, h, if_pos hpct, if_neg hb]

lemma step_fade_done_nosnap (u : XState)
    (hne : u.target_brightness ≠ u.brightness)
    (hsnap : u.fade_snap_time = none)
    (hpct : ¬((u.fade_elapsed + u.real_elapsed) / u.fade_time < 1)) :
    fadeView (step_fade u) =
      (u.target_brightness, u.last_brightness, u.target_brightness, u.fade_time,
       u.fade_elapsed + u.real_elapsed, none, u.fade_snap_clear_x,
       u.fade_snap_next_brightness) := by
  simp only [step_fade, if_pos hne]
  simp [fadeView, hsnap, if_neg hpct]

lemma step_fade_done_snap (u : XState) (t : ℚ)
    (hne : u.target_brightness ≠ u.brightness)
    (hsnap : u.fade_snap_time = some t)
    (hpct : ¬((u.fade_elapsed + u.real_elapsed) / u.fade_time < 1)) :
    (step_fade u).brightness = u.target_brightness ∧
    (step_fade u).current_time = t ∧
    (step_fade u).x_positions = (if u.fade_snap_clear_x then [] else u.x_positions) ∧
    (step_fade u).fade_snap_time = none ∧
    (step_fade u).target_brightness = u.fade_snap_next_brightness ∧
    (step_fade u).fade_elapsed = u.fade_elapsed + u.real_elapsed ∧
    (step_fade u).last_brightness = u.last_brightness ∧
    (step_fade u).fade_time = u.fade_time := by
  simp only [step_fade, if_pos hne]
  simp [hsnap, if_neg hpct]

lemma frameStep_steady (s : XState) (i : FrameInput)
    (h0 : ¬(s.brightness = 0 ∧ s.target_brightness = 0))
    (heq : s.target_brightness = s.brightness) :
    fadeView (frameStep s i) = fadeView s := by
  rw [frameStep_eq s i h0]
  obtain ⟨e1, e2, e3, e4, e5, e6, e7, e8⟩ := fadeView_ext (fadeView_preFade s i)
  rw [step_fade_steady _ (by rw [e3, e1]; exact heq)]
  exact fadeView_preFade s i

lemma frameStep_mid (s : XState) (i : FrameInput)
    (h0 : ¬(s.brightness = 0 ∧ s.target_brightness = 0))
    (hne : s.target_brightness ≠ s.brightness)
    (hpct : (s.fade_elapsed + i.elapsed) / s.fade_time < 1)
    (hb : s.last_brightness + (s.target_brightness - s.last_brightness) *
      ((s.fade_elapsed + i.elapsed) / s.fade_time) ≠ s.target_brightness) :
    fadeView (frameStep s i) =
      (s.last_brightness + (s.target_brightness - s.last_brightness) *
        ((s.fade_elapsed + i.elapsed) / s.fade_time),
       s.last_brightness, s.target_brightness, s.fade_time,
       s.fade_elapsed + i.elapsed, s.fade_snap_time, s.fade_snap_clear_x,
       s.fade_snap_next_brightness) := by
  rw [frameStep_eq s i h0]
  obtain ⟨e1, e2, e3, e4, e5, e6, e7, e8⟩ := fadeView_ext (fadeView_preFade s i)
  have hre := preFade_real_elapsed s i
  rw [step_fade_mid (preFade s i)
      (by rw [e3, e1]; exact hne)
      (by rw [e5, e4, hre]; exact hpct)
      (by rw [e2, e3, e5, e4, hre]; exact hb)]
  rw [e2, e3, e4, e5, e6, e7, e8, hre]

lemma frameStep_done_nosnap (s : XState) (i : FrameInput)
    (h0 : ¬(s.brightness = 0 ∧ s.target_brightness = 0))
    (hne : s.target_brightness ≠ s.brightness)
    (hsnap : s.fade_snap_time = none)
    (hpct : ¬((s.fade_elapsed + i.elapsed) / s.fade_time < 1)) :
    fadeView (frameStep s i) =
      (s.target_brightness, s.last_brightness, s.target_brightness, s.fade_time,
       s.fade_elapsed + i.elapsed, none, s.fade_snap_clear_x,
       s.fade_snap_next_brightness) := by
  rw [frameStep_eq s i h0]
  obtain ⟨e1, e2, e3, e4, e5, e6, e7, e8⟩ := fadeView_ext (fadeView_preFade s i)
  have hre := preFade_real_elapsed s i
  rw [step_fade_done_nosnap (preFade s i)
      (by rw [e3, e1]; exact hne)
      (by rw [e6]; exact hsnap)
      (by rw [e5, e4, hre]; exact hpct)]
  rw [e2, e3, e4, e5, e7, e8, hre]

lemma frameStep_done_snap (s : XState) (i : FrameInput) (t : ℚ)
    (h0 : ¬(s.brightness = 0 ∧ s.target_brightness = 0))
    (hne : s.target_brightness ≠ s.brightness)
    (hsnap : s.fade_snap_time = some t)
    (hclear : s.fade_snap_clear_x = true)
    (hpct : ¬((s.fade_elapsed + i.elapsed) / s.fade_time < 1)) :
    (frameStep s i).brightness = s.target_brightness ∧
    (frameStep s i).current_time = t ∧
    (frameStep s i).x_positions = [] ∧
    (frameStep s i).fade_snap_time = none ∧
    (frameStep s i).target_brightness = s.fade_snap_next_brightness ∧
    (frameStep s i).fade_elapsed = s.fade_elapsed + i.elapsed ∧
    (frameStep s i).last_brightness = s.last_brightness ∧
    (frameStep s i).fade_time = s.fade_time := by
  rw [frameStep_eq s i h0]
  obtain ⟨e1, e2, e3, e4, e5, e6, e7, e8⟩ := fadeView_ext (fadeView_preFade s i)
  have hre := preFade_real_elapsed s i
  have hmain := step_fade_done_snap (preFade s i) t
      (by rw [e3, e1]; exact hne)
      (by rw [e6]; exact hsnap)
      (by rw [e5, e4, hre]; exact hpct)
  obtain ⟨m1, m2, m3, m4, m5, m6, m7, m8⟩ := hmain
  rw [e7, hclear] at m3
  refine ⟨?_, m2, by simpa using m3, m4, ?_, ?_, ?_, ?_⟩
  · rw [m1, e3]
  · rw [m5, e8]
  · rw [m6, e5, hre]
  · rw [m7, e2]
  · rw [m8, e4]

/-! ### Accumulated elapsed time -/

@[simp] lemma sumE_nil : sumE [] = 0 := rfl

@[simp] lemma sumE_cons (i : FrameInput) (is : List FrameInput) :
    sumE (i :: is) = i.elapsed + sumE is := by
  simp [sumE]

lemma sumE_nonneg (is : List FrameInput) (h : ∀ i ∈ is, 0 ≤ i.elapsed) :
    0 ≤ sumE is := by
  induction is with
  | nil => simp
  | cons i is ih =>
    have := h i (by simp)
    have := ih (fun j hj => h j (by simp [hj]))
    simp only [sumE_cons]
    linarith

@[simp] lemma runFrames_nil (s : XState) : runFrames s [] = s := rfl

@[simp] lemma runFrames_cons (s : XState) (i : FrameInput) (is : List FrameInput) :
    runFrames s (i :: is) = runFrames (frameStep s i) is := rfl

/-! ### The fadesnap fade-down phase (claim C1) -/

lemma C1Inv_fields {T c : ℚ} {s : XState} (h : C1Inv T c s) :
    s.brightness = 100 - 100 * c ∧ s.last_brightness = 100 ∧
    s.target_brightness = 0 ∧ s.fade_time = 1 ∧ s.fade_elapsed = c ∧
    s.fade_snap_time = some T ∧ s.fade_snap_clear_x = true ∧
    s.fade_snap_next_brightness = 100 := by
  simpa [C1Inv, fadeView, Prod.ext_iff] using h

lemma C1Inv_start (s0 : XState) (hb : s0.brightness = 100) :
    C1Inv (replaceHM s0.current_time 3 15) 0 (set_fadesnap s0 3 15 1 true) := by
  simp [C1Inv, set_fadesnap, set_brightness, fadeView, hb]

lemma C1_step (T c : ℚ) (s : XState) (i : FrameInput)
    (hc : 0 ≤ c) (he : 0 ≤ i.elapsed) (hlt : c + i.elapsed < 1)
    (hInv : C1Inv T c s) : C1Inv T (c + i.elapsed) (frameStep s i) := by
  obtain ⟨b1, b2, b3, b4, b5, b6, b7, b8⟩ := C1Inv_fields hInv
  have h0 : ¬(s.brightness = 0 ∧ s.target_brightness = 0) := by
    rintro ⟨h1, -⟩
    rw [b1] at h1
    linarith
  have hne : s.target_brightness ≠ s.brightness := by
    rw [b1, b3]
    intro h
    linarith
  have hpct : (s.fade_elapsed + i.elapsed) / s.fade_time < 1 := by
    rw [b5, b4, div_one]
    linarith
  have hb' : s.last_brightness + (s.target_brightness - s.last_brightness) *
      ((s.fade_elapsed + i.elapsed) / s.fade_time) ≠ s.target_brightness := by
    rw [b2, b3, b5, b4, div_one]
    intro h
    linarith
  have hmid := frameStep_mid s i h0 hne hpct hb'
  have harith : (100 : ℚ) + (0 - 100) * ((c + i.elapsed) / 1) =
      100 - 100 * (c + i.elapsed) := by
    rw [div_one]
    ring
  rw [C1Inv, hmid, b2, b3, b4, b5, b6, b7, b8, harith]

lemma C1_run (T : ℚ) (is : List FrameInput) :
    ∀ (s : XState) (c : ℚ), 0 ≤ c → (∀ i ∈ is, 0 ≤ i.elapsed) →
    c + sumE is < 1 → C1Inv T c s → C1Inv T (c + sumE is) (runFrames s is) := by
  induction is with
  | nil =>
    intro s c hc _ _ hInv
    simpa using hInv
  | cons i is ih =>
    intro s c hc hnn hlt hInv
    have he : 0 ≤ i.elapsed := hnn i (by simp)
    have hnn' : ∀ j ∈ is, 0 ≤ j.elapsed := fun j hj => hnn j (by simp [hj])
    have hsum : 0 ≤ sumE is := sumE_nonneg is hnn'
    rw [sumE_cons] at hlt
    have hlt1 : c + i.elapsed < 1 := by linarith
    have hstep := C1_step T c s i hc he hlt1 hInv
    have := ih (frameStep s i) (c + i.elapsed) (by linarith) hnn' (by linarith) hstep
    rw [runFrames_cons, sumE_cons, ← add_assoc]
    exact this

lemma C1_snap_frame (T c : ℚ) (s : XState) (i : FrameInput)
    (hc : 0 ≤ c) (hc1 : c < 1) (hge : 1 ≤ c + i.elapsed)
    (hInv : C1Inv T c s) :
    (frameStep s i).brightness = 0 ∧ (frameStep s i).current_time = T ∧
    (frameStep s i).x_positions = [] ∧ (frameStep s i).fade_snap_time = none ∧
    (frameStep s i).target_brightness = 100 ∧
    (frameStep s i).fade_elapsed = c + i.elapsed ∧
    (frameStep s i).last_brightness = 100 ∧ (frameStep s i).fade_time = 1 := by
  obtain ⟨b1, b2, b3, b4, b5, b6, b7, b8⟩ := C1Inv_fields hInv
  have h0 : ¬(s.brightness = 0 ∧ s.target_brightness = 0) := by
    rintro ⟨h1, -⟩
    rw [b1] at h1
    linarith
  have hne : s.target_brightness ≠ s.brightness := by
    rw [b1, b3]
    intro h
    linarith
  have hpct : ¬((s.fade_elapsed + i.elapsed) / s.fade_time < 1) := by
    rw [b5, b4, div_one]
    linarith
  obtain ⟨m1, m2, m3, m4, m5, m6, m7, m8⟩ :=
    frameStep_done_snap s i T h0 hne b6 b7 hpct
  exact ⟨by rw [m1, b3], m2, m3, m4, by rw [m5, b8], by rw [m6, b5],
    by rw [m7, b2], by rw [m8, b4]⟩

lemma C1_recover (s : XState) (i : FrameInput)
    (hb : s.brightness = 0) (ht : s.target_brightness = 100)
    (hfe : 1 ≤ s.fade_elapsed) (hft : s.fade_time = 1)
    (hsnap : s.fade_snap_time = none) (he : 0 ≤ i.elapsed) :
    (frameStep s i).brightness = 100 := by
  have h0 : ¬(s.brightness = 0 ∧ s.target_brightness = 0) := by
    rintro ⟨-, h⟩
    rw [ht] at h
    norm_num at h
  have hne : s.target_brightness ≠ s.brightness := by
    rw [hb, ht]
    norm_num
  have hpct : ¬((s.fade_elapsed + i.elapsed) / s.fade_time < 1) := by
    rw [hft, div_one]
    linarith
  have hdone := frameStep_done_nosnap s i h0 hne hsnap hpct
  have h1 : (frameStep s i).brightness = s.target_brightness := by
    have := congrArg Prod.fst hdone
    simpa [fadeView] using this
  rw [h1, ht]

/-! ### The plain brightness fade (claim C2) -/

lemma C2_start (s0 : XState) (hb : s0.brightness = 40)
    (hsnap : s0.fade_snap_time = none) : C2M 0 (set_brightness s0 100 2) := by
  left
  refine ⟨by norm_num, ?_⟩
  simp [C2Mid, set_brightness, hb, hsnap]

lemma C2_step (c : ℚ) (s : XState) (i : FrameInput)
    (hc : 0 ≤ c) (he : 0 ≤ i.elapsed) (hM : C2M c s) :
    C2M (c + i.elapsed) (frameStep s i) := by
  rcases hM with ⟨hc2, hmid⟩ | ⟨hge, hdone⟩
  · obtain ⟨b1, b2, b3, b4, b5, b6⟩ := hmid
    have h0 : ¬(s.brightness = 0 ∧ s.target_brightness = 0) := by
      rintro ⟨-, h⟩
      rw [b3] at h
      norm_num at h
    have hne : s.target_brightness ≠ s.brightness := by
      rw [b1, b3]
      intro h
      linarith
    by_cases hlt : c + i.elapsed < 2
    · left
      have hpct : (s.fade_elapsed + i.elapsed) / s.fade_time < 1 := by
        rw [b5, b4]
        rw [div_lt_one (by norm_num)]
        linarith
      have hb' : s.last_brightness + (s.target_brightness - s.last_brightness) *
          ((s.fade_elapsed + i.elapsed) / s.fade_time) ≠ s.target_brightness := by
        rw [b2, b3, b5, b4]
        intro h
        have : (c + i.elapsed) / 2 = 1 := by linarith
        rw [div_eq_one_iff_eq (by norm_num)] at this
        linarith
      have hmid' := frameStep_mid s i h0 hne hpct hb'
      refine ⟨hlt, ?_, ?_, ?_, ?_, ?_, ?_⟩
      · have := congrArg Prod.fst hmid'
        simp only [fadeView] at this
        rw [this, b2, b3, b5, b4]
        ring
      · have := congrArg (fun p => p.2.1) hmid'
        simp only [fadeView] at this
        rw [this, b2]
      · have := congrArg (fun p => p.2.2.1) hmid'
        simp only [fadeView] at this
        rw [this, b3]
      · have := congrArg (fun p => p.2.2.2.1) hmid'
        simp only [fadeView] at this
        rw [this, b4]
      · have := congrArg (fun p => p.2.2.2.2.1) hmid'
        simp only [fadeView] at this
        rw [this, b5]
      · have := congrArg (fun p => p.2.2.2.2.2.1) hmid'
        simp only [fadeView] at this
        rw [this, b6]
    · right
      refine ⟨by linarith, ?_, ?_⟩
      · have hpct : ¬((s.fade_elapsed + i.elapsed) / s.fade_time < 1) := by
          rw [b5, b4]
          rw [div_lt_one (by norm_num)]
          linarith
        have hdone' := frameStep_done_nosnap s i h0 hne b6 hpct
        have := congrArg Prod.fst hdone'
        simp only [fadeView] at this
        rw [this, b3]
      · have hpct : ¬((s.fade_elapsed + i.elapsed) / s.fade_time < 1) := by
          rw [b5, b4]
          rw [div_lt_one (by norm_num)]
          linarith
        have hdone' := frameStep_done_nosnap s i h0 hne b6 hpct
        have := congrArg (fun p => p.2.2.1) hdone'
        simp only [fadeView] at this
        rw [this, b3]
  · obtain ⟨d1, d2⟩ := hdone
    have h0 : ¬(s.brightness = 0 ∧ s.target_brightness = 0) := by
      rintro ⟨h, -⟩
      rw [d1] at h
      norm_num at h
    have hsteady := frameStep_steady s i h0 (by rw [d1, d2])
    right
    refine ⟨by linarith, ?_, ?_⟩
    · have := (fadeView_ext hsteady).1
      rw [this, d1]
    · have := (fadeView_ext hsteady).2.2.1
      rw [this, d2]

lemma C2_run (is : List FrameInput) :
    ∀ (s : XState) (c : ℚ), 0 ≤ c → (∀ i ∈ is, 0 ≤ i.elapsed) →
    C2M c s → C2M (c + sumE is) (runFrames s is) := by
  induction is with
  | nil =>
    intro s c hc _ hM
    simpa using hM
  | cons i is ih =>
    intro s c hc hnn hM
    have he : 0 ≤ i.elapsed := hnn i (by simp)
    have hnn' : ∀ j ∈ is, 0 ≤ j.elapsed := fun j hj => hnn j (by simp [hj])
    have hstep := C2_step c s i hc he hM
    have := ih (frameStep s i) (c + i.elapsed) (by linarith) hnn' hstep
    rw [runFrames_cons, sumE_cons, ← add_assoc]
    exact this

/-! ### Field arithmetic of the snapped time -/

lemma replaceHM_floor (t : ℚ) (h m : ℤ) :
    ⌊replaceHM t h m⌋ = dayOf t * 86400 + h * 3600 + m * 60 := by
  have : replaceHM t h m =
      ((dayOf t * 86400 + h * 3600 + m * 60 : ℤ) : ℚ) + Int.fract t := by
    rw [replaceHM]
    push_cast
    ring
  rw [this, Int.floor_int_add, Int.floor_fract, add_zero]

lemma replaceHM_fields (t : ℚ) (h m : ℤ)
    (hh0 : 0 ≤ h) (hh1 : h ≤ 23) (hm0 : 0 ≤ m) (hm1 : m ≤ 59) :
    hourOf (replaceHM t h m) = h ∧ minuteOf (replaceHM t h m) = m ∧
    secondOf (replaceHM t h m) = 0 ∧ dayOf (replaceHM t h m) = dayOf t := by
  have hf := replaceHM_floor t h m
  constructor
  · rw [hourOf, secOfDay, hf]
    omega
  constructor
  · rw [minuteOf, secOfDay, hf]
    omega
  constructor
  · rw [secondOf, hf]
    omega
  · rw [dayOf, hf]
    omega

/-! ### The X-overlay structural invariant (claim C10) -/

lemma pySlice_sublist (n : ℤ) (l : List ℕ) : (pySlice n l).Sublist l := by
  rw [pySlice]
  split_ifs <;> exact List.take_sublist _ _

lemma XInv_positions (xs : List ℕ) (shuffled : List ℕ) (n : ℤ)
    (hperm : shuffled.Perm [0, 1, 2, 3]) (hxs : xs = pySlice n shuffled) :
    xs.Nodup ∧ ∀ p ∈ xs, p < 4 := by
  subst hxs
  have hnd : shuffled.Nodup := hperm.nodup_iff.mpr (by decide)
  constructor
  · exact hnd.sublist (pySlice_sublist n shuffled)
  · intro p hp
    have hmem : p ∈ shuffled := (pySlice_sublist n shuffled).mem hp
    have : p ∈ [0, 1, 2, 3] := hperm.mem_iff.mp hmem
    simp at this
    omega

lemma positions_array_mem :
    ∀ (cs : List Char) (i : ℕ) (p : ℕ), p ∈ positions_array cs i →
      i ≤ p ∧ p < i + cs.length := by
  intro cs
  induction cs with
  | nil => intro i p hp; simp [positions_array] at hp
  | cons c cs ih =>
    intro i p hp
    rw [positions_array] at hp
    split_ifs at hp with hc
    · rcases List.mem_cons.mp hp with h | h
      · subst h
        simp only [List.length_cons]
        omega
      · have := ih (i + 1) p h
        simp only [List.length_cons]
        omega
    · have := ih (i + 1) p hp
      simp only [List.length_cons]
      omega

lemma positions_array_nodup :
    ∀ (cs : List Char) (i : ℕ), (positions_array cs i).Nodup := by
  intro cs
  induction cs with
  | nil => intro i; simp [positions_array]
  | cons c cs ih =>
    intro i
    rw [positions_array]
    split_ifs with hc
    · refine List.nodup_cons.mpr ⟨?_, ih (i + 1)⟩
      intro hmem
      have := positions_array_mem cs (i + 1) i hmem
      omega
    · exact ih (i + 1)

lemma XInv_congr {s s' : XState} (h : s'.x_positions = s.x_positions)
    (hs : XInv s) : XInv s' := by
  rw [XInv, h]
  exact hs

lemma XInv_of_nil {s : XState} (h : s.x_positions = []) : XInv s := by
  rw [XInv, h]
  exact ⟨List.nodup_nil, by simp⟩

lemma x_glitch_x_positions (s : XState) (i : FrameInput) :
    (x_glitch s i).1.x_positions = s.x_positions ∨
    (x_glitch s i).1.x_positions = [] ∨
    ∃ n, (x_glitch s i).1.x_positions = pySlice n i.shuffled := by
  simp only [x_glitch, start_x_glitch]
  split_ifs <;>
    first
      | (left; rfl)
      | (right; left; rfl)
      | (right; right; exact ⟨_, rfl⟩)

lemma x_glitch_XInv (s : XState) (i : FrameInput) (h : XInv s) :
    XInv (x_glitch s i).1 := by
  rcases x_glitch_x_positions s i with he | he | ⟨n, he⟩
  · exact XInv_congr he h
  · exact XInv_of_nil he
  · rw [XInv, he]
    exact XInv_positions _ _ n i.hshuffled rfl

lemma step_fade_x_positions (s : XState) :
    (step_fade s).x_positions = s.x_positions ∨ (step_fade s).x_positions = [] := by
  unfold step_fade
  split_ifs
  · cases h : s.fade_snap_time <;> simp [h] <;> split_ifs <;> simp
  · left
    rfl

lemma step_fade_XInv (s : XState) (h : XInv s) : XInv (step_fade s) := by
  rcases step_fade_x_positions s with he | he
  · exact XInv_congr he h
  · exact XInv_of_nil he

lemma preFade_XInv (s : XState) (i : FrameInput) (h : XInv s) :
    XInv (preFade s i) := by
  rw [preFade]
  have h1 : XInv (tick_tock s i.elapsed) :=
    XInv_congr (tick_tock_x_positions s i.elapsed) h
  have h2 := XInv_congr (update_clock_x_positions (tick_tock s i.elapsed) i) h1
  have h3 := XInv_congr (numbers_glitch_x_positions _) h2
  have h4 := x_glitch_XInv _ i h3
  exact XInv_congr (do_glitch_x_positions _ _) h4

lemma frameStep_XInv (s : XState) (i : FrameInput) (h : XInv s) :
    XInv (frameStep s i) := by
  by_cases h0 : s.brightness = 0 ∧ s.target_brightness = 0
  · rw [frameStep_cleared s i h0.1 h0.2]
    exact XInv_congr (tick_tock_x_positions s i.elapsed) h
  · rw [frameStep_eq s i h0]
    exact step_fade_XInv _ (preFade_XInv s i h)

lemma frameStep_fade_time (s : XState) (i : FrameInput) :
    (frameStep s i).fade_time = s.fade_time := by
  by_cases h0 : s.brightness = 0 ∧ s.target_brightness = 0
  · rw [frameStep_cleared s i h0.1 h0.2]
    exact (fadeView_ext (fadeView_tick_tock s i.elapsed)).2.2.2.1
  · rw [frameStep_eq s i h0, step_fade_fade_time]
    exact (fadeView_ext (fadeView_preFade s i)).2.2.2.1

/-! ### Setter preservation of `fade_time` and `x_positions` -/

lemma set_time_keep (s : XState) (h m : ℤ) :
    (set_time s h m).fade_time = s.fade_time ∧
    (set_time s h m).x_positions = s.x_positions := by
  simp only [set_time]
  split_ifs <;> exact ⟨rfl, rfl⟩

lemma set_freeze_keep (s : XState) (e : ℤ) :
    (set_freeze s e).fade_time = s.fade_time ∧
    (set_freeze s e).x_positions = s.x_positions := by
  unfold set_freeze
  cases hf : s.freeze_time <;> split_ifs <;> exact ⟨rfl, rfl⟩

lemma set_timenow_keep (s : XState) (r : ℤ) (now : ℚ) :
    (set_timenow s r now).fade_time = s.fade_time ∧
    (set_timenow s r now).x_positions = s.x_positions := by
  simp only [set_timenow]
  split_ifs <;> exact ⟨rfl, rfl⟩

lemma set_color_keep (s : XState) (c : String) :
    (set_color s c).fade_time = s.fade_time ∧
    (set_color s c).x_positions = s.x_positions := by
  unfold set_color
  cases hc : color_to_rgb c <;> exact ⟨rfl, rfl⟩

lemma set_bg_keep (s : XState) (c : String) :
    (set_bg s c).fade_time = s.fade_time ∧
    (set_bg s c).x_positions = s.x_positions := by
  unfold set_bg
  cases hc : color_to_rgb c <;> exact ⟨rfl, rfl⟩

lemma set_x_color_keep (s : XState) (c : Option String) :
    (set_x_color s c).fade_time = s.fade_time ∧
    (set_x_color s c).x_positions = s.x_positions := by
  unfold set_x_color
  cases c with
  | none => exact ⟨rfl, rfl⟩
  | some a =>
    dsimp only
    split_ifs
    · exact ⟨rfl, rfl⟩
    · cases hc : color_to_rgb a <;> exact ⟨rfl, rfl⟩

lemma set_brightness_keep (s : XState) (t d : ℚ) :
    (set_brightness s t d).fade_time = (if d = 0 then s.fade_time else d) ∧
    (set_brightness s t d).x_positions = s.x_positions := by
  simp only [set_brightness]
  split_ifs <;> exact ⟨rfl, rfl⟩

lemma set_fadesnap_keep (s : XState) (h m : ℤ) (d : ℚ) (cx : Bool) :
    ((set_fadesnap s h m d cx).fade_time = s.fade_time ∨
      (set_fadesnap s h m d cx).fade_time = d) ∧
    (set_fadesnap s h m d cx).x_positions = s.x_positions := by
  simp only [set_fadesnap, set_brightness]
  split_ifs <;> first | exact ⟨Or.inl rfl, rfl⟩ | exact ⟨Or.inr rfl, rfl⟩

lemma set_single_x_glitch_keep (s : XState) (n f : ℤ) (c : Option String) :
    (set_single_x_glitch s n f c).fade_time = s.fade_time ∧
    (set_single_x_glitch s n f c).x_positions = s.x_positions := by
  have := set_x_color_keep s c
  simp only [set_single_x_glitch]
  exact this

lemma set_random_x_glitch_keep (s : XState) (fr n f : ℤ) (c : Option String) :
    (set_random_x_glitch s fr n f c).fade_time = s.fade_time ∧
    (set_random_x_glitch s fr n f c).x_positions = s.x_positions := by
  have := set_single_x_glitch_keep s n f c
  simp only [set_random_x_glitch]
  split_ifs
  · exact ⟨rfl, rfl⟩
  · exact this

lemma set_random_glitch_keep (s : XState) (f i : ℤ) :
    (set_random_glitch s f i).fade_time = s.fade_time ∧
    (set_random_glitch s f i).x_positions = s.x_positions := by
  simp only [set_random_glitch]
  split_ifs <;> exact ⟨rfl, rfl⟩

lemma set_glitch_to_keep (s : XState) (h m f : ℤ) :
    (set_glitch_to s h m f).fade_time = s.fade_time ∧
    (set_glitch_to s h m f).x_positions = s.x_positions := by
  have := set_time_keep s h m
  simp only [set_glitch_to]
  split_ifs
  · exact this
  · exact ⟨rfl, rfl⟩

lemma set_x_positions_keep (s : XState) (p : String) (c : Option String) :
    (set_x_positions s p c).fade_time = s.fade_time ∧
    ((set_x_positions s p c).x_positions = s.x_positions ∨
      ((set_x_positions s p c).x_positions = positions_array p.data 0 ∧
        p.length = 4)) := by
  simp only [set_x_positions]
  split_ifs with hlen
  · exact ⟨rfl, Or.inl rfl⟩
  · have := (set_x_color_keep
      { s with x_glitch_mode := GLITCH_MODE_OFF, x_glitch_step := 0 } c).1
    exact ⟨this, Or.inr ⟨rfl, not_ne_iff.mp hlen⟩⟩

lemma set_normal_keep (s : XState) :
    (set_normal s).fade_time = s.fade_time ∧
    (set_normal s).x_positions = [] := by
  simp only [set_normal, set_freeze, set_blink_all, set_blink_dots]
  cases hf : s.freeze_time <;> split_ifs <;> exact ⟨rfl, by simp⟩

/-! ### The reachable-state invariant -/

lemma dispatch_coreOK (s : XState) (c : Cmd) (h : coreOK s) :
    coreOK (dispatch s c) := by
  obtain ⟨hft, hx⟩ := h
  cases c with
  | time h m =>
    exact ⟨by rw [dispatch, (set_time_keep s h m).1]; exact hft,
      XInv_congr (set_time_keep s h m).2 hx⟩
  | freeze e =>
    exact ⟨by rw [dispatch, (set_freeze_keep s e).1]; exact hft,
      XInv_congr (set_freeze_keep s e).2 hx⟩
  | timenow r now =>
    exact ⟨by rw [dispatch, (set_timenow_keep s r now).1]; exact hft,
      XInv_congr (set_timenow_keep s r now).2 hx⟩
  | increment_time m => exact ⟨hft, XInv_congr rfl hx⟩
  | time_dilation f => exact ⟨hft, XInv_congr rfl hx⟩
  | brightness t d =>
    refine ⟨?_, XInv_congr (set_brightness_keep s t d).2 hx⟩
    rw [dispatch, (set_brightness_keep s t d).1]
    split_ifs with hd
    · exact hft
    · exact hd
  | brightnessBadTarget d => exact ⟨hft, XInv_congr rfl hx⟩
  | color c =>
    exact ⟨by rw [dispatch, (set_color_keep s c).1]; exact hft,
      XInv_congr (set_color_keep s c).2 hx⟩
  | xColor c =>
    exact ⟨by rw [dispatch, (set_x_color_keep s (some c)).1]; exact hft,
      XInv_congr (set_x_color_keep s (some c)).2 hx⟩
  | bg c =>
    exact ⟨by rw [dispatch, (set_bg_keep s c).1]; exact hft,
      XInv_congr (set_bg_keep s c).2 hx⟩
  | random_glitch f i =>
    exact ⟨by rw [dispatch, (set_random_glitch_keep s f i).1]; exact hft,
      XInv_congr (set_random_glitch_keep s f i).2 hx⟩
  | random_x_glitch f n fr c =>
    exact ⟨by rw [dispatch, (set_random_x_glitch_keep s f n fr c).1]; exact hft,
      XInv_congr (set_random_x_glitch_keep s f n fr c).2 hx⟩
  | single_x_glitch n fr c =>
    exact ⟨by rw [dispatch, (set_single_x_glitch_keep s n fr c).1]; exact hft,
      XInv_congr (set_single_x_glitch_keep s n fr c).2 hx⟩
  | xPositions p c =>
    refine ⟨by rw [dispatch, (set_x_positions_keep s p c).1]; exact hft, ?_⟩
    rcases (set_x_positions_keep s p c).2 with he | ⟨he, hlen⟩
    · exact XInv_congr he hx
    · show XInv (set_x_positions s p c)
      rw [XInv, he]
      refine ⟨positions_array_nodup _ 0, fun q hq => ?_⟩
      have hmem := positions_array_mem _ 0 q hq
      have hdata : p.data.length = 4 := by
        rw [← String.length]
        exact hlen
      omega
  | glitch_to h m f =>
    exact ⟨by rw [dispatch, (set_glitch_to_keep s h m f).1]; exact hft,
      XInv_congr (set_glitch_to_keep s h m f).2 hx⟩
  | fadesnap h m d cx =>
    refine ⟨?_, XInv_congr (set_fadesnap_keep s h m d cx).2 hx⟩
    rcases (set_fadesnap_keep s h m d cx).1 with he | he
    · rw [dispatch, he]
      exact hft
    · -- the second disjunct only arises from the `duration ≠ 0` branch of
      -- `set_brightness`; with `d = 0` it contradicts `fade_time ≠ 0`
      by_cases hd : d = 0
      · exfalso
        subst hd
        simp only [set_fadesnap, set_brightness] at he
        split_ifs at he <;> exact hft he
      · rw [dispatch, he]
        exact hd
  | normal =>
    exact ⟨by rw [dispatch, (set_normal_keep s).1]; exact hft,
      XInv_of_nil (by rw [dispatch]; exact (set_normal_keep s).2)⟩
  | blink_dots e => exact ⟨hft, XInv_congr rfl hx⟩
  | blink_all e => exact ⟨hft, XInv_congr rfl hx⟩
  | framerate r => exact ⟨hft, XInv_congr rfl hx⟩
  | display_text t => exact ⟨hft, XInv_congr rfl hx⟩
  | showip e ip => exact ⟨hft, XInv_congr rfl hx⟩
  | unknown => exact ⟨hft, hx⟩

lemma run_coreOK (evs : List Ev) :
    ∀ s : XState, coreOK s → coreOK (run s evs) := by
  induction evs with
  | nil => intro s h; exact h
  | cons e evs ih =>
    intro s h
    cases e with
    | cmd c => exact ih _ (dispatch_coreOK s c h)
    | frame i =>
      exact ih _ ⟨by rw [frameStep_fade_time]; exact h.1, frameStep_XInv s i h.2⟩

lemma initState_coreOK (t0 : ℚ) : coreOK (initState t0) :=
  ⟨by norm_num [initState], XInv_of_nil rfl⟩

/-! ### Glitch machines with mode `off` (claim C7) -/

lemma x_glitch_off (s : XState) (i : FrameInput)
    (h : s.x_glitch_mode = GLITCH_MODE_OFF) :
    (x_glitch s i).1.x_glitch_mode = GLITCH_MODE_OFF ∧ (x_glitch s i).2 = false := by
  simp only [x_glitch, h]
  split_ifs <;>
    simp_all [GLITCH_MODE_OFF, GLITCH_MODE_RANDOM, GLITCH_MODE_SINGLE]

lemma do_glitch_off (s : XState) (i : FrameInput)
    (h : s.glitch_mode = GLITCH_MODE_OFF) : (do_glitch s i).2.2 = false := by
  simp only [do_glitch, h]
  split_ifs <;>
    simp_all [GLITCH_MODE_OFF, GLITCH_MODE_ON, GLITCH_MODE_RANDOM]

lemma frameBurst_off (s : XState) (i : FrameInput)
    (h : s.glitch_mode = GLITCH_MODE_OFF) : frameBurst s i = false := by
  simp only [frameBurst, frameRenderFull]
  split_ifs with h0
  · rfl
  · apply do_glitch_off
    simp [h]

lemma frameXTrig_off (s : XState) (i : FrameInput)
    (h : s.x_glitch_mode = GLITCH_MODE_OFF) : frameXTrig s i = false := by
  simp only [frameXTrig, frameRenderFull]
  split_ifs with h0
  · rfl
  · exact (x_glitch_off _ i (by simp [h])).2

lemma frameStep_glitch_mode (s : XState) (i : FrameInput) :
    (frameStep s i).glitch_mode = s.glitch_mode := by
  by_cases h0 : s.brightness = 0 ∧ s.target_brightness = 0
  · rw [frameStep_cleared s i h0.1 h0.2]
    simp
  · rw [frameStep_eq s i h0]
    simp [preFade]

lemma frameStep_x_glitch_mode_off (s : XState) (i : FrameInput)
    (h : s.x_glitch_mode = GLITCH_MODE_OFF) :
    (frameStep s i).x_glitch_mode = GLITCH_MODE_OFF := by
  by_cases h0 : s.brightness = 0 ∧ s.target_brightness = 0
  · rw [frameStep_cleared s i h0.1 h0.2]
    simp [h]
  · rw [frameStep_eq s i h0, step_fade_x_glitch_mode, preFade,
      do_glitch_x_glitch_mode]
    exact (x_glitch_off _ i (by simp [h])).1

lemma runFrames_glitch_mode_off (is : List FrameInput) :
    ∀ s : XState, s.glitch_mode = GLITCH_MODE_OFF →
    (runFrames s is).glitch_mode = GLITCH_MODE_OFF := by
  induction is with
  | nil => intro s h; exact h
  | cons i is ih =>
    intro s h
    rw [runFrames_cons]
    exact ih _ (by rw [frameStep_glitch_mode]; exact h)

lemma runFrames_x_glitch_mode_off (is : List FrameInput) :
    ∀ s : XState, s.x_glitch_mode = GLITCH_MODE_OFF →
    (runFrames s is).x_glitch_mode = GLITCH_MODE_OFF := by
  induction is with
  | nil => intro s h; exact h
  | cons i is ih =>
    intro s h
    rw [runFrames_cons]
    exact ih _ (frameStep_x_glitch_mode_off s i h)

/-! ### The X-glitch countdown (claim C8) -/

lemma x_glitch_countdown (s : XState) (i : FrameInput)
    (hmode : s.x_glitch_mode = GLITCH_MODE_OFF) (hpos : 0 < s.x_glitch_step) :
    (x_glitch s i).1.x_glitch_mode = GLITCH_MODE_OFF ∧
    (x_glitch s i).1.x_glitch_step = s.x_glitch_step - 1 ∧
    (x_glitch s i).1.x_positions =
      (if s.x_glitch_step - 1 ≤ 0 then [] else s.x_positions) := by
  simp only [x_glitch, if_pos hpos]
  split_ifs <;>
    simp_all [GLITCH_MODE_OFF, GLITCH_MODE_RANDOM, GLITCH_MODE_SINGLE]

lemma xMachineRun_clears (n : ℕ) :
    ∀ (s : XState) (is : List FrameInput), s.x_glitch_mode = GLITCH_MODE_OFF →
    s.x_glitch_step = (n : ℤ) + 1 → is.length = n + 1 →
    (xMachineRun s is).x_positions = [] := by
  induction n with
  | zero =>
    intro s is hmode hstep hlen
    match is with
    | [i] =>
      have h01 : (0 : ℤ) < s.x_glitch_step := by rw [hstep]; norm_num
      obtain ⟨-, -, hp⟩ := x_glitch_countdown s i hmode h01
      rw [show xMachineRun s [i] = (x_glitch s i).1 from rfl, hp, hstep]
      norm_num
  | succ n ih =>
    intro s is hmode hstep hlen
    match is with
    | i :: is =>
      have h01 : (0 : ℤ) < s.x_glitch_step := by rw [hstep]; positivity
      obtain ⟨hm, hs, -⟩ := x_glitch_countdown s i hmode h01
      have : xMachineRun s (i :: is) = xMachineRun (x_glitch s i).1 is := rfl
      rw [this]
      refine ih _ is hm ?_ ?_
      · rw [hs, hstep]
        push_cast
        ring
      · simpa using hlen

/-! ### Drawing operations of a scroll-text frame (claim C9) -/

lemma update_clock_scroll_ops (s : XState) (i : FrameInput)
    (h : s.scrolling_text ≠ "") :
    (update_clock s i).2 = [DrawOp.text s.scrolling_text] := by
  simp only [update_clock, draw_scrolling_text, if_pos h]

lemma numbers_glitch_ops (s : XState) :
    ∀ op ∈ (numbers_glitch s).2, ∃ p, op = DrawOp.randDigit p := by
  intro op hop
  simp only [numbers_glitch] at hop
  split_ifs at hop
  · simp at hop
    rcases hop with h | h | h | h <;> exact ⟨_, h⟩
  · simp at hop

lemma do_glitch_ops (s : XState) (i : FrameInput) :
    ∀ op ∈ (do_glitch s i).2.1, op = DrawOp.shear := by
  intro op hop
  simp only [do_glitch] at hop
  split_ifs at hop <;> simp at hop <;> tauto

lemma draw_x_ops (s : XState) :
    ∀ op ∈ draw_x s, ∃ p, op = DrawOp.xGlyph p := by
  intro op hop
  simp only [draw_x, List.mem_map] at hop
  obtain ⟨p, -, hp⟩ := hop
  exact ⟨p, hp.symm⟩

lemma x_glitch_idle (s : XState) (i : FrameInput)
    (hmode : s.x_glitch_mode = GLITCH_MODE_OFF)
    (hstep : ¬(0 < s.x_glitch_step)) : (x_glitch s i).1 = s := by
  simp only [x_glitch, if_neg hstep, if_pos hmode]

lemma frameOps_eq (s : XState) (i : FrameInput)
    (h : ¬(s.brightness = 0 ∧ s.target_brightness = 0)) :
    frameOps s i =
      (update_clock (tick_tock s i.elapsed) i).2 ++
      (numbers_glitch (update_clock (tick_tock s i.elapsed) i).1).2 ++
      draw_x (x_glitch (numbers_glitch
        (update_clock (tick_tock s i.elapsed) i).1).1 i).1 ++
      (do_glitch (x_glitch (numbers_glitch
        (update_clock (tick_tock s i.elapsed) i).1).1 i).1 i).2.1 := by
  have h' : ¬((tick_tock s i.elapsed).brightness = 0 ∧
      (tick_tock s i.elapsed).target_brightness = 0) := by simpa using h
  simp only [frameOps, frameRenderFull, if_neg h']

lemma frameOps_x_member (s : XState) (i : FrameInput) (p : ℕ)
    (h : ¬(s.brightness = 0 ∧ s.target_brightness = 0))
    (hmode : s.x_glitch_mode = GLITCH_MODE_OFF)
    (hstep : s.x_glitch_step = 0)
    (hpos : p ∈ s.x_positions) :
    DrawOp.xGlyph p ∈ frameOps s i := by
  rw [frameOps_eq s i h]
  have hYmode : (numbers_glitch
      (update_clock (tick_tock s i.elapsed) i).1).1.x_glitch_mode =
      GLITCH_MODE_OFF := by simp [hmode]
  have hYstep : ¬(0 < (numbers_glitch
      (update_clock (tick_tock s i.elapsed) i).1).1.x_glitch_step) := by
    simp [hstep]
  rw [x_glitch_idle _ i hYmode hYstep]
  have hYpos : (numbers_glitch
      (update_clock (tick_tock s i.elapsed) i).1).1.x_positions =
      s.x_positions := by simp
  simp only [draw_x, hYpos, List.mem_append]
  exact Or.inl (Or.inr (List.mem_map_of_mem _ hpos))

lemma frameOps_text_member (s : XState) (i : FrameInput)
    (h : ¬(s.brightness = 0 ∧ s.target_brightness = 0))
    (hscroll : s.scrolling_text ≠ "") :
    DrawOp.text s.scrolling_text ∈ frameOps s i := by
  rw [frameOps_eq s i h]
  have hT : (tick_tock s i.elapsed).scrolling_text = s.scrolling_text :=
    tick_tock_scrolling s i.elapsed
  rw [update_clock_scroll_ops _ i (by rw [hT]; exact hscroll), hT]
  simp

lemma frameOps_scroll (s : XState) (i : FrameInput)
    (h : s.scrolling_text ≠ "") :
    ∀ op ∈ frameOps s i,
      (∃ t, op = DrawOp.text t) ∨ (∃ p, op = DrawOp.randDigit p) ∨
      (∃ p, op = DrawOp.xGlyph p) ∨ op = DrawOp.shear := by
  intro op hop
  simp only [frameOps, frameRenderFull] at hop
  split_ifs at hop with h0
  · simp at hop
  · simp only [List.mem_append] at hop
    rcases hop with ((h1 | h2) | h3) | h4
    · left
      rw [update_clock_scroll_ops _ i (by simpa using h)] at h1
      simp at h1
      exact ⟨_, h1⟩
    · right
      left
      exact numbers_glitch_ops _ op h2
    · right
      right
      left
      exact draw_x_ops _ op h3
    · right
      right
      right
      exact do_glitch_ops _ i op h4

/-! ### A duration-zero fadesnap is never completed (claim C4) -/

lemma set_fadesnap_zero (s : XState) (h m : ℤ) (cx : Bool)
    (hvalid : 0 ≤ h ∧ h ≤ 23 ∧ 0 ≤ m ∧ m ≤ 59) :
    (set_fadesnap s h m 0 cx).brightness = 0 ∧
    (set_fadesnap s h m 0 cx).target_brightness = 0 ∧
    (set_fadesnap s h m 0 cx).fade_snap_time =
      some (replaceHM s.current_time h m) := by
  simp only [set_fadesnap, set_brightness, if_pos hvalid]
  norm_num

lemma runFrames_blank (is : List FrameInput) :
    ∀ s : XState, s.brightness = 0 → s.target_brightness = 0 →
    (runFrames s is).brightness = 0 ∧ (runFrames s is).target_brightness = 0 ∧
    (runFrames s is).fade_snap_time = s.fade_snap_time := by
  induction is with
  | nil => intro s hb ht; exact ⟨hb, ht, rfl⟩
  | cons i is ih =>
    intro s hb ht
    rw [runFrames_cons, frameStep_cleared s i hb ht]
    obtain ⟨k1, k2, k3, k4, k5, k6, k7, k8⟩ :=
      fadeView_ext (fadeView_tick_tock s i.elapsed)
    obtain ⟨r1, r2, r3⟩ := ih (tick_tock s i.elapsed) (by rw [k1]; exact hb)
      (by rw [k3]; exact ht)
    exact ⟨r1, r2, by rw [r3, k6]⟩

/-! ## Claim theorems -/

/-- C1: a `set_fadesnap(3, 15, duration := 1, clear_x := true)` call made at
brightness 100 makes brightness fall linearly (`100 - 100·elapsed`) over one
second of accumulated real time; on the frame where one second is reached,
brightness is exactly 0 and at that instant `current_time` is teleported to
03:15:00 of the same day, the X overlay positions are cleared, the pending
snap is discharged and `target_brightness` becomes 100, after which
brightness returns to 100 (on the very next frame, since `fade_elapsed`
already exceeds the 1-second `fade_time`). -/
theorem C1_fadesnap_theorem (s0 : XState) (is : List FrameInput)
    (ik inext : FrameInput)
    (hb : s0.brightness = 100)
    (hnn : ∀ i ∈ is, 0 ≤ i.elapsed)
    (hn : 0 ≤ inext.elapsed)
    (hlt : sumE is < 1) (hge : 1 ≤ sumE is + ik.elapsed) :
    let A := runFrames (set_fadesnap s0 3 15 1 true) is
    let B := frameStep A ik
    let C := frameStep B inext
    A.brightness = 100 - 100 * sumE is ∧
    B.brightness = 0 ∧
    hourOf B.current_time = 3 ∧ minuteOf B.current_time = 15 ∧
    secondOf B.current_time = 0 ∧ dayOf B.current_time = dayOf s0.current_time ∧
    B.x_positions = [] ∧ B.fade_snap_time = none ∧ B.target_brightness = 100 ∧
    C.brightness = 100 := by
  intro A B C
  have hInv0 := C1Inv_start s0 hb
  have hrun := C1_run (replaceHM s0.current_time 3 15) is
    (set_fadesnap s0 3 15 1 true) 0 le_rfl hnn (by simpa using hlt) hInv0
  rw [zero_add] at hrun
  have hsum0 : 0 ≤ sumE is := sumE_nonneg is hnn
  have hA : A.brightness = 100 - 100 * sumE is := (C1Inv_fields hrun).1
  obtain ⟨p1, p2, p3, p4, p5, p6, p7, p8⟩ :=
    C1_snap_frame (replaceHM s0.current_time 3 15) (sumE is) A ik hsum0 hlt hge hrun
  obtain ⟨t1, t2, t3, t4⟩ := replaceHM_fields s0.current_time 3 15
    (by norm_num) (by norm_num) (by norm_num) (by norm_num)
  have hC : C.brightness = 100 :=
    C1_recover B inext p1 p5 (by rw [p6]; exact hge) p8 p4 hn
  exact ⟨hA, p1, by rw [p2]; exact t1, by rw [p2]; exact t2, by rw [p2]; exact t3,
    by rw [p2]; exact t4, p3, p4, p5, hC⟩

/-- Witness for C1 at a concrete run: two frames of 0.6 s reach the snap, a
third frame restores brightness 100. -/
theorem C1_fadesnap_witness :
    ((∀ i ∈ [inp (3/5)], 0 ≤ i.elapsed) ∧ sumE [inp (3/5)] < 1 ∧
      1 ≤ sumE [inp (3/5)] + (inp (3/5)).elapsed) ∧
    (let A := runFrames (set_fadesnap wS0 3 15 1 true) [inp (3/5)]
     let B := frameStep A (inp (3/5))
     let C := frameStep B (inp (3/5))
     A.brightness = 100 - 100 * sumE [inp (3/5)] ∧
     B.brightness = 0 ∧
     hourOf B.current_time = 3 ∧ minuteOf B.current_time = 15 ∧
     secondOf B.current_time = 0 ∧ dayOf B.current_time = dayOf wS0.current_time ∧
     B.x_positions = [] ∧ B.fade_snap_time = none ∧ B.target_brightness = 100 ∧
     C.brightness = 100) :=
  ⟨⟨by norm_num [inp], by norm_num [sumE, inp], by norm_num [sumE, inp]⟩,
    C1_fadesnap_theorem wS0 [inp (3/5)] (inp (3/5)) (inp (3/5)) rfl
      (by norm_num [inp]) (by norm_num [inp]) (by norm_num [sumE, inp])
      (by norm_num [sumE, inp])⟩

/-- C2 counterexample: the claim quantifies over *every* fade started by
`set_brightness(100, 2.0)` from brightness 40 and asserts brightness stays
100 after 2 seconds.  If a fadesnap is pending (here one armed by
`set_fadesnap(7, 0, 100, false)` and then pre-empted), reaching 100 fires the
snap, `target_brightness` becomes `fade_snap_next_brightness` (40), and the
very next frame drops brightness back to 40: after 2.5 accumulated seconds
brightness reads 40, not 100. -/
theorem C2_counterexample :
    (set_fadesnap (set_brightness (initState 0) 40 0) 7 0 100 false).brightness = 40 ∧
    2 ≤ sumE [inp 1, inp 1, inp (1/2)] ∧
    (runFrames
        (set_brightness
          (set_fadesnap (set_brightness (initState 0) 40 0) 7 0 100 false) 100 2)
        [inp 1, inp 1, inp (1/2)]).brightness = 40 ∧
    ((40 : ℚ) ≠ 100) := by
  refine ⟨by norm_num [set_fadesnap, set_brightness, initState],
    by norm_num [sumE, inp], ?_, by norm_num⟩
  norm_num [runFrames, frameStep, frameRenderFull, tick_tock, update_clock,
    numbers_glitch, x_glitch, do_glitch, step_fade, draw_x, start_x_glitch,
    set_brightness, set_fadesnap, initState, inp, Int.fract, replaceHM, dayOf,
    GLITCH_MODE_OFF, GLITCH_MODE_RANDOM, GLITCH_MODE_SINGLE, GLITCH_MODE_ON,
    hhmm, digitChar, hourOf, minuteOf, secOfDay, pySlice, Option.join]

/-- C2 amended: for a fade started by `set_brightness(100, 2.0)` from
brightness 40 **with no fadesnap pending**, brightness follows
`40 + (100 - 40) * (elapsed / 2)` while under 2 seconds have accumulated
(70 at exactly 1 second), and reads exactly 100 — and stays 100 — once 2
seconds or more have accumulated. -/
theorem C2_amended_theorem (s0 : XState) (hb : s0.brightness = 40)
    (hsnap : s0.fade_snap_time = none) :
    (∀ is : List FrameInput, (∀ i ∈ is, 0 ≤ i.elapsed) → sumE is < 2 →
      (runFrames (set_brightness s0 100 2) is).brightness =
        40 + (100 - 40) * (sumE is / 2)) ∧
    (∀ is : List FrameInput, (∀ i ∈ is, 0 ≤ i.elapsed) → sumE is = 1 →
      (runFrames (set_brightness s0 100 2) is).brightness = 70) ∧
    (∀ is : List FrameInput, (∀ i ∈ is, 0 ≤ i.elapsed) → 2 ≤ sumE is →
      (runFrames (set_brightness s0 100 2) is).brightness = 100) := by
  have hstart := C2_start s0 hb hsnap
  have key : ∀ is : List FrameInput, (∀ i ∈ is, 0 ≤ i.elapsed) →
      C2M (sumE is) (runFrames (set_brightness s0 100 2) is) := by
    intro is hnn
    have := C2_run is (set_brightness s0 100 2) 0 le_rfl hnn hstart
    rwa [zero_add] at this
  refine ⟨?_, ?_, ?_⟩
  · intro is hnn hlt
    rcases key is hnn with ⟨h2, hmid⟩ | ⟨hge, -⟩
    · rw [hmid.1]
      ring
    · linarith
  · intro is hnn hsum
    rcases key is hnn with ⟨h2, hmid⟩ | ⟨hge, -⟩
    · rw [hmid.1, hsum]
      norm_num
    · rw [hsum] at hge
      norm_num at hge
  · intro is hnn hge
    rcases key is hnn with ⟨h2, -⟩ | ⟨-, hdone⟩
    · linarith
    · exact hdone.1

/-- Witness for C2 amended: one 1-second frame reads 70, two reach 100. -/
theorem C2_amended_witness :
    (runFrames (set_brightness wS40 100 2) [inp 1]).brightness = 70 ∧
    (runFrames (set_brightness wS40 100 2) [inp 1, inp 1]).brightness = 100 :=
  ⟨(C2_amended_theorem wS40 rfl rfl).2.1 [inp 1] (by norm_num [inp])
      (by norm_num [sumE, inp]),
   (C2_amended_theorem wS40 rfl rfl).2.2 [inp 1, inp 1] (by norm_num [inp])
      (by norm_num [sumE, inp])⟩

/-- C3 counterexample: `set_brightness(150, 0)` clamps only
`target_brightness`; `brightness` is assigned the raw 150, so it does not
equal the clamped target and escapes `[0, 100]`. -/
theorem C3_counterexample :
    (set_brightness (initState 0) 150 0).target_brightness = 100 ∧
    (set_brightness (initState 0) 150 0).brightness = 150 ∧
    (set_brightness (initState 0) 150 0).brightness ≠
      (set_brightness (initState 0) 150 0).target_brightness ∧
    ¬((set_brightness (initState 0) 150 0).brightness ≤ 100) := by
  refine ⟨?_, ?_, ?_, ?_⟩ <;> norm_num [set_brightness, initState]

/-- C3 amended: `set_brightness(target, duration)` clamps the stored
`target_brightness` to `[0, 100]` and always records
`last_brightness = brightness`; with `duration = 0` the raw (unclamped)
`target` is written to `brightness` and the fade fields are untouched (so
brightness equals the clamped target only when `target ∈ [0, 100]`); with
`duration ≠ 0`, `fade_elapsed` is reset and `fade_time := duration` while
`brightness` is unchanged. -/
theorem C3_amended_theorem (s : XState) (t d : ℚ) :
    (set_brightness s t d).target_brightness = max (min t 100) 0 ∧
    (set_brightness s t d).last_brightness = s.brightness ∧
    (set_brightness s t d).brightness = (if d = 0 then t else s.brightness) ∧
    (set_brightness s t d).fade_elapsed =
      (if d = 0 then s.fade_elapsed else 0) ∧
    (set_brightness s t d).fade_time = (if d = 0 then s.fade_time else d) ∧
    (d = 0 → 0 ≤ t → t ≤ 100 →
      (set_brightness s t d).brightness = (set_brightness s t d).target_brightness) := by
  simp only [set_brightness]
  split_ifs with hd
  · refine ⟨rfl, rfl, rfl, rfl, rfl, fun _ h1 h2 => ?_⟩
    show t = max (min t 100) 0
    rw [min_eq_left h2, max_eq_left h1]
  · exact ⟨rfl, rfl, rfl, rfl, rfl, fun h => absurd h hd⟩

/-- Witness for C3 amended at `set_brightness(50, 0)`. -/
theorem C3_amended_witness :
    (set_brightness (initState 0) 50 0).target_brightness =
      max (min 50 100) 0 ∧
    (set_brightness (initState 0) 50 0).last_brightness =
      (initState 0).brightness ∧
    (set_brightness (initState 0) 50 0).brightness =
      (if (0 : ℚ) = 0 then 50 else (initState 0).brightness) ∧
    (set_brightness (initState 0) 50 0).fade_elapsed =
      (if (0 : ℚ) = 0 then (initState 0).fade_elapsed else 0) ∧
    (set_brightness (initState 0) 50 0).fade_time =
      (if (0 : ℚ) = 0 then (initState 0).fade_time else 0) ∧
    ((0 : ℚ) = 0 → (0 : ℚ) ≤ 50 → (50 : ℚ) ≤ 100 →
      (set_brightness (initState 0) 50 0).brightness =
        (set_brightness (initState 0) 50 0).target_brightness) :=
  C3_amended_theorem (initState 0) 50 0

/-- C4 counterexample: `set_fadesnap(3, 15, duration := 0, clear_x := true)`
jumps brightness to 0 with `target_brightness` 0, so every subsequent frame
raises `Cleared` right after `tick_tock` and `step_fade` never runs: the
pending snap (time 11700 = 03:15:00) is never discharged and `current_time`
is never teleported — the snap is lost rather than applied instantaneously. -/
theorem C4_counterexample :
    (runFrames (set_fadesnap wS0 3 15 0 true) [inp 1, inp 1, inp 1]).fade_snap_time =
      some 11700 ∧
    (runFrames (set_fadesnap wS0 3 15 0 true) [inp 1, inp 1, inp 1]).brightness = 0 ∧
    (runFrames (set_fadesnap wS0 3 15 0 true) [inp 1, inp 1, inp 1]).target_brightness = 0 ∧
    (runFrames (set_fadesnap wS0 3 15 0 true) [inp 1, inp 1, inp 1]).current_time = 3 ∧
    ((3 : ℚ) ≠ 11700) := by
  refine ⟨?_, ?_, ?_, ?_, by norm_num⟩ <;>
    norm_num [runFrames, frameStep, frameRenderFull, tick_tock, update_clock,
      numbers_glitch, x_glitch, do_glitch, step_fade, draw_x, start_x_glitch,
      set_brightness, set_fadesnap, initState, wS0, inp, Int.fract, replaceHM,
      dayOf, GLITCH_MODE_OFF, GLITCH_MODE_RANDOM, GLITCH_MODE_SINGLE,
      GLITCH_MODE_ON, hhmm, digitChar, hourOf, minuteOf, secOfDay, pySlice,
      Option.join]

/-- C4 amended: `step_fade` can never divide by zero because `fade_time` is
nonzero in every reachable state (`set_brightness` only stores nonzero
durations); a `set_brightness(t, 0)` jumps brightness to the raw target
immediately; but a `set_fadesnap(h, m, 0, _)` does **not** complete the snap
instantaneously: the state blanks (brightness 0 = target 0) and the pending
snap survives every subsequent frame unchanged. -/
theorem C4_amended_theorem :
    (∀ (t0 : ℚ) (evs : List Ev), (run (initState t0) evs).fade_time ≠ 0) ∧
    (∀ (s : XState) (t : ℚ), (set_brightness s t 0).brightness = t) ∧
    (∀ (s : XState) (h m : ℤ) (cx : Bool) (is : List FrameInput),
      0 ≤ h → h ≤ 23 → 0 ≤ m → m ≤ 59 →
      (runFrames (set_fadesnap s h m 0 cx) is).fade_snap_time =
        some (replaceHM s.current_time h m) ∧
      (runFrames (set_fadesnap s h m 0 cx) is).brightness = 0 ∧
      (runFrames (set_fadesnap s h m 0 cx) is).target_brightness = 0) := by
  refine ⟨fun t0 evs => (run_coreOK evs (initState t0) (initState_coreOK t0)).1,
    fun s t => by simp [set_brightness], ?_⟩
  intro s h m cx is hh0 hh1 hm0 hm1
  obtain ⟨z1, z2, z3⟩ := set_fadesnap_zero s h m cx ⟨hh0, hh1, hm0, hm1⟩
  obtain ⟨r1, r2, r3⟩ := runFrames_blank is _ z1 z2
  exact ⟨by rw [r3, z3], r1, r2⟩

/-- Witness for C4 amended at concrete runs. -/
theorem C4_amended_witness :
    (run (initState 0) [Ev.cmd (Cmd.brightness 30 5)]).fade_time ≠ 0 ∧
    (set_brightness wS0 77 0).brightness = 77 ∧
    ((runFrames (set_fadesnap wS0 3 15 0 true) [inp 1]).fade_snap_time =
        some (replaceHM wS0.current_time 3 15) ∧
      (runFrames (set_fadesnap wS0 3 15 0 true) [inp 1]).brightness = 0 ∧
      (runFrames (set_fadesnap wS0 3 15 0 true) [inp 1]).target_brightness = 0) :=
  ⟨C4_amended_theorem.1 0 [Ev.cmd (Cmd.brightness 30 5)],
   C4_amended_theorem.2.1 wS0 77,
   C4_amended_theorem.2.2 wS0 3 15 true [inp 1]
     (by norm_num) (by norm_num) (by norm_num) (by norm_num)⟩

/-- C5 counterexample: dispatching `/brightness` with a malformed (string)
target mid-fade is caught by the dispatcher, but `set_brightness` has already
executed its first line: `last_brightness` is overwritten with the current
brightness (here 0 → 50), so the state is *not* unchanged. -/
theorem C5_counterexample :
    (set_brightness (initState 0) 50 0).last_brightness = 0 ∧
    (dispatch (set_brightness (initState 0) 50 0)
        (Cmd.brightnessBadTarget 2)).last_brightness = 50 ∧
    dispatch (set_brightness (initState 0) 50 0) (Cmd.brightnessBadTarget 2) ≠
      set_brightness (initState 0) 50 0 := by
  have h1 : (set_brightness (initState 0) 50 0).last_brightness = 0 := by
    norm_num [set_brightness, initState]
  have h2 : (dispatch (set_brightness (initState 0) 50 0)
      (Cmd.brightnessBadTarget 2)).last_brightness = 50 := by
    norm_num [dispatch, set_brightness, initState]
  refine ⟨h1, h2, fun heq => ?_⟩
  have := congrArg XState.last_brightness heq
  rw [h1, h2] at this
  norm_num at this

/-- C5 amended: a dispatch that fails before the setter body runs (unknown
name or wrong arity) leaves the state exactly unchanged, but a setter that
raises mid-body keeps its earlier mutations: `/brightness` with a
non-numeric target overwrites `last_brightness` with the current brightness
before `min(target, 100)` raises, and changes nothing else. -/
theorem C5_amended_theorem (s : XState) (d : ℚ) :
    dispatch s (Cmd.brightnessBadTarget d) =
      { s with last_brightness := s.brightness } ∧
    dispatch s Cmd.unknown = s :=
  ⟨rfl, rfl⟩

/-- C6 counterexample: the token `"zzz"` parses neither as a name nor as hex,
so the resolver returns `None`; `set_color` stores that result
unconditionally, *nulling* `text_color` instead of retaining the previous
color `#29B6F6`. -/
theorem C6_counterexample :
    color_to_rgb "zzz" = some none ∧
    (initState 0).text_color = some (41, 182, 246) ∧
    (set_color (initState 0) "zzz").text_color = none ∧
    (set_color (initState 0) "zzz").text_color ≠ (initState 0).text_color := by
  refine ⟨by decide, by decide, by decide, by decide⟩

/-- C6 amended: on a token the resolver cannot parse, only `set_x_color`
retains the previous color (it falls back with `or`); `set_color` and
`set_bg` overwrite the stored color with the resolver's `None`. -/
theorem C6_amended_theorem (s : XState) (c : String)
    (hfail : color_to_rgb c = some none) :
    (set_x_color s (some c)).x_color = s.x_color ∧
    (set_color s c).text_color = none ∧
    (set_bg s c).background = none := by
  have hne : c ≠ "" := by
    intro h
    subst h
    have hnone : color_to_rgb "" = none := by decide
    rw [hnone] at hfail
    simp at hfail
  refine ⟨?_, ?_, ?_⟩
  · unfold set_x_color
    dsimp only
    rw [if_neg hne, hfail]
    simp [Option.orElse]
  · unfold set_color
    rw [hfail]
  · unfold set_bg
    rw [hfail]

/-- Witness for C6 amended at the unparseable token `"zzz"`. -/
theorem C6_amended_witness :
    (set_x_color (initState 0) (some "zzz")).x_color = (initState 0).x_color ∧
    (set_color (initState 0) "zzz").text_color = none ∧
    (set_bg (initState 0) "zzz").background = none :=
  C6_amended_theorem (initState 0) "zzz" (by decide)

/-- C7: `set_random_glitch(freq := 0)` and `set_random_x_glitch(freq := 0)`
turn the corresponding mode off; from any state with a mode off, every
sequence of frames keeps that mode off, and on every frame — whatever the
random draws — the corresponding trigger (a new visual burst arming
`glitch_step`, or a `start_x_glitch` call) never fires. -/
theorem C7_theorem :
    (∀ (s : XState) (intensity : ℤ),
      (set_random_glitch s 0 intensity).glitch_mode = GLITCH_MODE_OFF) ∧
    (∀ (s : XState) (num frames : ℤ) (c : Option String),
      (set_random_x_glitch s 0 num frames c).x_glitch_mode = GLITCH_MODE_OFF) ∧
    (∀ (s : XState) (is : List FrameInput) (i : FrameInput),
      s.glitch_mode = GLITCH_MODE_OFF →
      (runFrames s is).glitch_mode = GLITCH_MODE_OFF ∧
      frameBurst (runFrames s is) i = false) ∧
    (∀ (s : XState) (is : List FrameInput) (i : FrameInput),
      s.x_glitch_mode = GLITCH_MODE_OFF →
      (runFrames s is).x_glitch_mode = GLITCH_MODE_OFF ∧
      frameXTrig (runFrames s is) i = false) := by
  refine ⟨fun s it => ?_, fun s n f c => ?_, fun s is i h => ?_, fun s is i h => ?_⟩
  · norm_num [set_random_glitch, GLITCH_MODE_OFF]
  · norm_num [set_random_x_glitch, GLITCH_MODE_OFF]
  · have hm := runFrames_glitch_mode_off is s h
    exact ⟨hm, frameBurst_off _ i hm⟩
  · have hm := runFrames_x_glitch_mode_off is s h
    exact ⟨hm, frameXTrig_off _ i hm⟩

/-- Witness for C7 at the startup state (both modes off). -/
theorem C7_witness :
    (set_random_glitch (initState 0) 0 4).glitch_mode = GLITCH_MODE_OFF ∧
    (set_random_x_glitch (initState 0) 0 1 1 none).x_glitch_mode = GLITCH_MODE_OFF ∧
    ((runFrames (initState 0) [inp 1]).glitch_mode = GLITCH_MODE_OFF ∧
      frameBurst (runFrames (initState 0) [inp 1]) (inp 1) = false) ∧
    ((runFrames (initState 0) [inp 1]).x_glitch_mode = GLITCH_MODE_OFF ∧
      frameXTrig (runFrames (initState 0) [inp 1]) (inp 1) = false) :=
  ⟨C7_theorem.1 (initState 0) 4, C7_theorem.2.1 (initState 0) 1 1 none,
   C7_theorem.2.2.1 (initState 0) [inp 1] (inp 1) rfl,
   C7_theorem.2.2.2 (initState 0) [inp 1] (inp 1) rfl⟩

/-- C8 counterexample: with `x_glitch_frames = 0` (reachable via
`single_x_glitch(num := 2, frames := 0)`), the single-shot trigger installs
two X positions but arms the countdown at 0, so after exactly
`x_glitch_frames = 0` further steps the positions are *not* empty (the
countdown body never runs and they persist). -/
theorem C8_counterexample :
    (frameStep (dispatch (initState 0) (Cmd.single_x_glitch 2 0 none))
        (inp 0)).x_glitch_frames = 0 ∧
    (frameStep (dispatch (initState 0) (Cmd.single_x_glitch 2 0 none))
        (inp 0)).x_glitch_step = 0 ∧
    (frameStep (dispatch (initState 0) (Cmd.single_x_glitch 2 0 none))
        (inp 0)).x_positions = [0, 1] ∧
    (frameStep (dispatch (initState 0) (Cmd.single_x_glitch 2 0 none))
        (inp 0)).x_positions ≠ [] := by
  refine ⟨?_, ?_, ?_, ?_⟩ <;>
    (norm_num [runFrames, frameStep, frameRenderFull, tick_tock, update_clock,
      numbers_glitch, x_glitch, do_glitch, step_fade, draw_x, start_x_glitch,
      dispatch, set_single_x_glitch, set_x_color, initState, inp, Int.fract,
      GLITCH_MODE_OFF, GLITCH_MODE_RANDOM, GLITCH_MODE_SINGLE, GLITCH_MODE_ON,
      hhmm, digitChar, hourOf, minuteOf, secOfDay, pySlice, Option.join]
     try decide)

/-- C8 amended: for every shuffle outcome, `start_x_glitch` with
`x_glitch_number = 2` installs exactly 2 distinct slot indices from
`{0, 1, 2, 3}` and arms `x_glitch_step := x_glitch_frames`; and provided the
countdown was armed at `x_glitch_step ≥ 1` with the machine mode off (as
after a single-shot trigger), after exactly that many steps of the X-glitch
state machine `x_positions` is empty. -/
theorem C8_amended_theorem :
    (∀ (s : XState) (perm : List ℕ), perm.Perm [0, 1, 2, 3] →
      s.x_glitch_number = 2 →
      (start_x_glitch s perm).x_positions.length = 2 ∧
      (start_x_glitch s perm).x_positions.Nodup ∧
      (∀ p ∈ (start_x_glitch s perm).x_positions, p < 4) ∧
      (start_x_glitch s perm).x_glitch_step = s.x_glitch_frames) ∧
    (∀ (s : XState) (is : List FrameInput),
      s.x_glitch_mode = GLITCH_MODE_OFF → 1 ≤ s.x_glitch_step →
      is.length = s.x_glitch_step.toNat →
      (xMachineRun s is).x_positions = []) := by
  constructor
  · intro s perm hperm hn
    have hlen4 : perm.length = 4 := by simpa using hperm.length_eq
    have hin : (start_x_glitch s perm).x_positions.Nodup ∧
        ∀ p ∈ (start_x_glitch s perm).x_positions, p < 4 :=
      XInv_positions _ _ _ hperm rfl
    refine ⟨?_, hin.1, hin.2, rfl⟩
    have hx : (start_x_glitch s perm).x_positions = List.take (Int.toNat 2) perm := by
      simp [start_x_glitch, pySlice, hn]
    rw [hx, List.length_take, hlen4]
    decide
  · intro s is hmode hstep hlen
    obtain ⟨n, hn⟩ : ∃ n : ℕ, s.x_glitch_step = (n : ℤ) + 1 :=
      ⟨s.x_glitch_step.toNat - 1, by omega⟩
    exact xMachineRun_clears n s is hmode hn (by rw [hlen]; omega)

/-- Witness for C8 amended: identity shuffle with number 2, and a countdown
armed at 2 cleared after exactly 2 machine steps. -/
theorem C8_amended_witness :
    ((start_x_glitch wXn [0, 1, 2, 3]).x_positions.length = 2 ∧
     (start_x_glitch wXn [0, 1, 2, 3]).x_positions.Nodup ∧
     (0 : ℕ) < 4 ∧
     (start_x_glitch wXn [0, 1, 2, 3]).x_glitch_step = wXn.x_glitch_frames) ∧
    (xMachineRun wXs [inp 1, inp 1]).x_positions = [] :=
  ⟨⟨(C8_amended_theorem.1 wXn [0, 1, 2, 3] (by decide) rfl).1,
    (C8_amended_theorem.1 wXn [0, 1, 2, 3] (by decide) rfl).2.1,
    (C8_amended_theorem.1 wXn [0, 1, 2, 3] (by decide) rfl).2.2.1 0 (by decide),
    (C8_amended_theorem.1 wXn [0, 1, 2, 3] (by decide) rfl).2.2.2⟩,
   C8_amended_theorem.2 wXs [inp 1, inp 1] rfl (by decide) (by decide)⟩

/-- C9 counterexample: while scrolling text is active, `render` still runs
`draw_x` (and `numbers_glitch`/`do_glitch`), so with an X mask installed the
frame's buffer receives an X glyph on top of the scrolled text — the text
does not fully replace the X/glitch rendering. -/
theorem C9_counterexample :
    (dispatch (dispatch (initState 0) (Cmd.display_text "HI"))
        (Cmd.xPositions "X000" none)).scrolling_text = "HI" ∧
    DrawOp.xGlyph 0 ∈
      frameOps (dispatch (dispatch (initState 0) (Cmd.display_text "HI"))
        (Cmd.xPositions "X000" none)) (inp 0) := by
  constructor
  · decide
  · exact frameOps_x_member _ (inp 0) 0 (by decide) (by decide) (by decide)
      (by decide)

/-- C9 amended: while `scrolling_text` is non-empty the frame never draws the
normal time digits or the separator glyph (the scroll replaces the clock
face), but numeral-glitch digits, X glyphs and the visual shear can still be
applied over it. -/
theorem C9_amended_theorem (s : XState) (i : FrameInput)
    (h : s.scrolling_text ≠ "") :
    ∀ op ∈ frameOps s i,
      (∀ c p, op ≠ DrawOp.glyph c p) ∧ op ≠ DrawOp.sep := by
  intro op hop
  rcases frameOps_scroll s i h op hop with ⟨t, rfl⟩ | ⟨p, rfl⟩ | ⟨p, rfl⟩ | rfl <;>
    exact ⟨fun c q => by simp, by simp⟩

/-- Witness for C9 amended: the scroll-text frame of `wScroll` contains its
text operation, which is neither a digit glyph nor the separator. -/
theorem C9_amended_witness :
    (DrawOp.text "HI" ≠ DrawOp.glyph '0' 0) ∧ DrawOp.text "HI" ≠ DrawOp.sep := by
  have hmem : DrawOp.text "HI" ∈ frameOps wScroll (inp 0) :=
    frameOps_text_member wScroll (inp 0) (by decide) (by decide)
  exact ⟨(C9_amended_theorem wScroll (inp 0) (by decide) (DrawOp.text "HI") hmem).1 '0' 0,
    (C9_amended_theorem wScroll (inp 0) (by decide) (DrawOp.text "HI") hmem).2⟩

/-- C10 counterexample: `set_x_positions("XXXX")` installs all four slots
without touching `x_glitch_number` (still 0 at startup), so the claimed size
bound `|x_positions| ≤ x_glitch_number` fails. -/
theorem C10_counterexample :
    (dispatch (initState 0) (Cmd.xPositions "XXXX" none)).x_positions =
      [0, 1, 2, 3] ∧
    (dispatch (initState 0) (Cmd.xPositions "XXXX" none)).x_glitch_number = 0 ∧
    ¬(((dispatch (initState 0) (Cmd.xPositions "XXXX" none)).x_positions.length : ℤ) ≤
      (dispatch (initState 0) (Cmd.xPositions "XXXX" none)).x_glitch_number) := by
  refine ⟨by decide, by decide, by decide⟩

/-- C10 amended: in every state reachable from startup by any sequence of
commands and frames, `x_positions` is a duplicate-free subset of the slot
indices `{0, 1, 2, 3}` (the size bound `≤ x_glitch_number` is dropped: it
only holds for positions installed by `start_x_glitch`). -/
theorem C10_amended_theorem (t0 : ℚ) (evs : List Ev) :
    (run (initState t0) evs).x_positions.Nodup ∧
    ∀ p ∈ (run (initState t0) evs).x_positions, p < 4 :=
  (run_coreOK evs (initState t0) (initState_coreOK t0)).2

/-- Witness for C10 amended after an explicit `x_positions("X0X0")` command. -/
theorem C10_amended_witness :
    (run (initState 0) [Ev.cmd (Cmd.xPositions "X0X0" none)]).x_positions.Nodup ∧
    (2 : ℕ) < 4 :=
  ⟨(C10_amended_theorem 0 [Ev.cmd (Cmd.xPositions "X0X0" none)]).1,
   (C10_amended_theorem 0 [Ev.cmd (Cmd.xPositions "X0X0" none)]).2 2 (by decide)⟩

end XClock
